import Mathlib

/-! go-redcap: request bodies and transport of `pkg/redcap.go`

Every method of `RedCapClient` assembles a form body with `fmt.Sprintf`, posts it
and returns the bytes read.  The development embeds

* the fragment of Go's `fmt.Sprintf` that the templates of the package exercise
  (plain verbs, a decimal width, the `%!v(MISSING)`, `%!(EXTRA ...)`,
  `%!(NOVERB)` and bad-verb diagnostics),
* `parameterBuilder` and the `formating` string of each of the 41 methods,
* the shared request/response skeleton with `log.Fatal` on every error branch.

Go strings are modelled by Lean strings: every verb used copies its operand
verbatim, so nothing depends on the encoding of the characters.
-/

namespace Redcap

/-! ## `fmt.Sprintf` -/

/-- An operand handed to `fmt.Sprintf`.  `str` is a value of kind string together with
the name `reflect.TypeOf` prints for it (`string`, `redcap.ResponseFormat`), `int` a Go
`int`, and `stringer` a value printed through its `String()` method (`time.Time`),
carried as that rendering. -/
inductive GoArg where
  | str (typeName : String) (val : String)
  | int (val : Int)
  | stringer (typeName : String) (rendered : String)
  deriving DecidableEq, Repr

/-- `fmt.padString` and `fmt.pad` without the minus and zero flags: nothing is added
when no width is pending (a width of 0 is also what an absent width leaves), otherwise
blanks are written on the left up to the width. -/
def pad : Nat → List Char → List Char
  | 0, s => s
  | wid + 1, s => List.replicate (wid + 1 - s.length) ' ' ++ s

/-- `reflect.TypeOf(arg).String()`. -/
def GoArg.typeName : GoArg → String
  | .str t _ => t
  | .int _ => "int"
  | .stringer t _ => t

/-- `printArg(arg, 'v')`: the default rendering, padded to the pending width. -/
def printV (wid : Nat) : GoArg → List Char
  | .str _ s => pad wid s.data
  | .int n => pad wid (toString n).data
  | .stringer _ s => pad wid s.data

/-- `badVerb`: `%!verb(type=value)`, the value printed with `%v` under the flags still
pending. -/
def badVerb (wid : Nat) (arg : GoArg) (verb : Char) : List Char :=
  '%' :: '!' :: verb :: '(' :: (arg.typeName.data ++ '=' :: (printV wid arg ++ [')']))

/-- `printArg`: what one operand contributes under a verb.  `%T` is served first and
prints the type of the operand.  `none` marks the verbs Go accepts for the operand's kind
that this model does not render (`%x`, `%q`, `%c`, ..., and `%w`, whose treatment changed
between Go releases); every other verb is a bad verb. -/
def printArg (wid : Nat) (arg : GoArg) (verb : Char) : Option (List Char) :=
  if verb = 'T' then some (pad wid arg.typeName.data) else
  if verb = 'w' then none else
  match arg with
  | .str _ s =>
    if verb = 's' ∨ verb = 'v' then some (pad wid s.data)
    else if verb = 'x' ∨ verb = 'X' ∨ verb = 'q' then none
    else some (badVerb wid arg verb)
  | .int n =>
    if verb = 'd' ∨ verb = 'v' then some (pad wid (toString n).data)
    else if verb = 'b' ∨ verb = 'o' ∨ verb = 'O' ∨ verb = 'x' ∨ verb = 'X' ∨ verb = 'c'
      ∨ verb = 'q' ∨ verb = 'U' then none
    else some (badVerb wid arg verb)
  | .stringer _ s =>
    if verb = 's' ∨ verb = 'v' then some (pad wid s.data) else none

/-- The tail `doPrintf` appends for operands no verb consumed: `%!(EXTRA type=value, ...)`. -/
def extraArgs : List GoArg → List Char
  | [] => []
  | a :: rest =>
    "%!(EXTRA ".data ++ (a.typeName.data ++ '=' :: printV 0 a)
      ++ (rest.flatMap fun b => ", ".data ++ (b.typeName.data ++ '=' :: printV 0 b)) ++ [')']

/-- Where `doPrintf` stands in the format: in plain text, right after a `%`, or inside
the digits of a width. -/
inductive Scan where
  | text
  | start
  | width (num : Nat)
  deriving DecidableEq, Repr

/-- `doPrintf`, one character of the format per step; the remaining operands play the
role of `a[argNum:]`.  Flags, `*`, precision and `[n]` indexes are outside the model
(`none`); `parsenum` gives up on a width beyond 1e6 and the format then ends without a
verb. -/
def doPrintf : List Char → Scan → List GoArg → Option (List Char)
  | [], .text, a => some (extraArgs a)
  | [], _, a => some ("%!(NOVERB)".data ++ extraArgs a)
  | c :: cs, .text, a =>
    if c = '%' then doPrintf cs .start a
    else (doPrintf cs .text a).map (c :: ·)
  | c :: cs, .start, a =>
    if c = '#' ∨ c = '0' ∨ c = '+' ∨ c = '-' ∨ c = ' ' ∨ c = '*' ∨ c = '.' ∨ c = '[' then none
    else if c.isDigit then doPrintf cs (.width (c.toNat - 48)) a
    else if c = '%' then (doPrintf cs .text a).map ('%' :: ·)
    else match a with
      | [] => (doPrintf cs .text []).map
          (('%' :: '!' :: c :: "(MISSING)".data) ++ ·)
      | x :: rest =>
        (printArg 0 x c).bind fun out => (doPrintf cs .text rest).map (out ++ ·)
  | c :: cs, .width n, a =>
    if c.isDigit then
      if 1000000 < n then some ("%!(NOVERB)".data ++ extraArgs a)
      else doPrintf cs (.width (n * 10 + (c.toNat - 48))) a
    else if c = '.' ∨ c = '[' then none
    else if c = '%' then (doPrintf cs .text a).map ('%' :: ·)
    else match a with
      | [] => (doPrintf cs .text []).map
          (('%' :: '!' :: c :: "(MISSING)".data) ++ ·)
      | x :: rest =>
        (printArg n x c).bind fun out => (doPrintf cs .text rest).map (out ++ ·)

/-- `fmt.Sprintf(format, a...)`. -/
def Sprintf (format : String) (a : List GoArg) : Option String :=
  (doPrintf format.data .text a).map String.mk

/-! ## The client and `parameterBuilder` -/

/-- `type ResponseFormat string`; the package names three values of it. -/
abbrev ResponseFormat := String

def JSON : ResponseFormat := "json"

def XML : ResponseFormat := "xml"

def CSV : ResponseFormat := "csv"

/-- `type BuilderType string`; the five constants are the kinds `parameterBuilder` tells
apart. -/
abbrev BuilderType := String

def Arms : BuilderType := "arms"

def Dags : BuilderType := "dags"

def Events : BuilderType := "events"

def Users : BuilderType := "users"

def UserRoles : BuilderType := "userRoles"

structure RedCapClient where
  Token : String
  URL : String
  ResponseFormat : ResponseFormat
  deriving DecidableEq, Repr

/-- The loop `for i, v := range parameters { formating += fmt.Sprintf(format, i, v) }`,
entered at index `i` with `formating` as accumulated so far. -/
def rangeLoop (format : String) : List String → Nat → String → Option String
  | [], _, formating => some formating
  | v :: rest, i, formating =>
    (Sprintf format [.int i, .str "string" v]).bind fun entry =>
      rangeLoop format rest (i + 1) (formating ++ entry)

/-- `parameterBuilder`: the `switch` on the builder kind, each case with the format of
its loop, the cases tried in the order of the source. -/
def parameterBuilder (parameters : List String) (builder : BuilderType) : Option String :=
  if builder = Dags then rangeLoop "dags[%d]=%s" parameters 0 ""
  else if builder = Arms then rangeLoop "[%d]=%s" parameters 0 ""
  else if builder = Events then rangeLoop "events[%d]=%s" parameters 0 ""
  else if builder = UserRoles then rangeLoop "roles[%d]=%s" parameters 0 ""
  else if builder = Users then rangeLoop "users[%d]=%s" parameters 0 ""
  else rangeLoop "[%d]=%s" parameters 0 ""

/-- One call of a method of `RedCapClient` with its arguments.  The two `time.Time`
arguments of `ExportLogging` are carried as what their `String()` method returns, the
only thing the method reads from them. -/
inductive Call where
  | DeleteArms (arms : List String)
  | DeleteDags (dags : List String)
  | DeleteEvents (events : List String)
  | DeleteFile (record : String) (field : String) (event : String)
  | DeleteRecords (records : String) (arms : String) (instrument : String)
  | DeleteUserRoles (roles : List String)
  | DeleteUsers (users : List String)
  | ExportArms
  | ExportDags
  | ExportEvents
  | ExportFieldNames (feild : String)
  | ExportFile (record : String) (feild : String) (event : String)
  | ExportInstrumentEventMaps
  | ExportInstrumentPDF
  | ExportInstruments
  | ExportLogging (startTime : String) (endTime : String)
  | ExportMetadata
  | ExportProjectXML
  | ExportProject
  | ExportRecords
  | ExportRedcapVersion
  | ExportReports (reportID : String)
  | ExportSurveyLink (recordID : String) (instrument : String) (event : String)
  | ExportSurveyParticipants (instrument : String) (event : String)
  | ExportSurveyQueueLink (recordID : String) (instrument : String) (event : String)
  | ExportSurveyReturnCode (recordID : String) (instrument : String) (event : String)
  | ExportDagMaps
  | ExportUserRoles
  | ExportUsers
  | ImportArms
  | ImportDags
  | ImportEvents
  | ImportFile
  | ImportInstrumentEventMaps
  | ImportProject
  | ImportRecords
  | ImportUserDagMaps
  | ImportUserRoles
  | ImportUsers
  | RenameRecord (record_id : String) (arm : String) (record_id_new : String)
  | SwitchDag (dag : String)
  deriving DecidableEq, Repr

/-- The `formating` string each method builds: its `fmt.Sprintf` call, template and
operands in the order of the source. -/
def formating (r : RedCapClient) : Call → Option String
  | .DeleteArms arms =>
    (parameterBuilder arms "arms").bind fun params =>
    Sprintf "token=%s&content=arm&action=delete&format=%s&arms=%s"
      [.str "string" r.Token, .str "redcap.ResponseFormat" r.ResponseFormat, .str "string" params]
  | .DeleteDags dags =>
    (parameterBuilder dags "dags").bind fun params =>
    Sprintf "token=%s&content=dag&action=delete&format=%s&%s"
      [.str "string" r.Token, .str "redcap.ResponseFormat" r.ResponseFormat, .str "string" params]
  | .DeleteEvents events =>
    (parameterBuilder events "events").bind fun params =>
    Sprintf "token=%s&content=event&action=delete&format=%s&%s"
      [.str "string" r.Token, .str "redcap.ResponseFormat" r.ResponseFormat, .str "string" params]
  | .DeleteFile record field event =>
    Sprintf "token=%s&content=file&action=delete&record=%s&field=%s&event=%s"
      [.str "string" r.Token, .str "string" record, .str "string" field, .str "string" event]
  | .DeleteRecords records arms instrument =>
    Sprintf "token=%s&action=delete&content=record&records[0]=%s&arm=%s&instrument=%s&event=visit_1_arm_1&returnformat=%s"
      [.str "string" r.Token, .str "string" records, .str "string" arms, .str "string" instrument, .str "redcap.ResponseFormat" r.ResponseFormat]
  | .DeleteUserRoles roles =>
    (parameterBuilder roles "userRoles").bind fun params =>
    Sprintf "token=%s&content=userRole&action=delete&format=%s&%s"
      [.str "string" r.Token, .str "redcap.ResponseFormat" r.ResponseFormat, .str "string" params]
  | .DeleteUsers users =>
    (parameterBuilder users "users").bind fun params =>
    Sprintf "token=%s&content=user&action=delete&format=%s&%s"
      [.str "string" r.Token, .str "redcap.ResponseFormat" r.ResponseFormat, .str "string" params]
  | .ExportArms =>
    Sprintf "token=%s&content=arm&format=%s"
      [.str "string" r.Token, .str "redcap.ResponseFormat" r.ResponseFormat]
  | .ExportDags =>
    Sprintf "token=%s&content=dag&format=%s"
      [.str "string" r.Token, .str "redcap.ResponseFormat" r.ResponseFormat]
  | .ExportEvents =>
    Sprintf "token=%s&content=event&format=%s&arms="
      [.str "string" r.Token, .str "redcap.ResponseFormat" r.ResponseFormat]
  | .ExportFieldNames feild =>
    Sprintf "token=%s&content=exportFieldNames&format=%s&field=%s"
      [.str "string" r.Token, .str "redcap.ResponseFormat" r.ResponseFormat, .str "string" feild]
  | .ExportFile record feild event =>
    Sprintf "token=%s&content=file&action=export&record=%s&field=%s&event=%s"
      [.str "string" r.Token, .str "string" record, .str "string" feild, .str "string" event]
  | .ExportInstrumentEventMaps =>
    Sprintf "token=%s&content=formEventMapping&format=%s"
      [.str "string" r.Token, .str "redcap.ResponseFormat" r.ResponseFormat]
  | .ExportInstrumentPDF =>
    Sprintf "token=%s&content=pdf&format=%s"
      [.str "string" r.Token, .str "redcap.ResponseFormat" r.ResponseFormat]
  | .ExportInstruments =>
    Sprintf "token=%s&content=instrument&format=%s"
      [.str "string" r.Token, .str "redcap.ResponseFormat" r.ResponseFormat]
  | .ExportLogging startTime endTime =>
    Sprintf "token=%s&content=log&format=%s&logtype=&user=&record=&beginTime=%s&endTime=%s"
      [.str "string" r.Token, .str "redcap.ResponseFormat" r.ResponseFormat, .stringer "time.Time" startTime, .stringer "time.Time" endTime]
  | .ExportMetadata =>
    Sprintf "token=%s&content=metadata&format=%s"
      [.str "string" r.Token, .str "redcap.ResponseFormat" r.ResponseFormat]
  | .ExportProjectXML =>
    Sprintf "token=%s&content=project_xml&returnMetadataOnly=false&exportSurveyFields=false&exportDataAccessGroups=false&returnformat=%s"
      [.str "string" r.Token, .str "redcap.ResponseFormat" r.ResponseFormat]
  | .ExportProject =>
    Sprintf "token=%s&content=project&format=%s"
      [.str "string" r.Token, .str "redcap.ResponseFormat" r.ResponseFormat]
  | .ExportRecords =>
    Sprintf "token=%s&content=record&format=%s&type=flat"
      [.str "string" r.Token, .str "redcap.ResponseFormat" r.ResponseFormat]
  | .ExportRedcapVersion =>
    Sprintf "token=%s&content=version"
      [.str "string" r.Token]
  | .ExportReports reportID =>
    Sprintf "token=%s&content=report&format=%s&report_id=%s"
      [.str "string" r.Token, .str "redcap.ResponseFormat" r.ResponseFormat, .str "string" reportID]
  | .ExportSurveyLink recordID instrument event =>
    Sprintf "token=%s&content=surveyLink&record=%s&instrument=%s&event=%s&format=%s"
      [.str "string" r.Token, .str "string" recordID, .str "string" instrument, .str "string" event, .str "redcap.ResponseFormat" r.ResponseFormat]
  | .ExportSurveyParticipants instrument event =>
    Sprintf "token=%s&content=participantList&instrument=%s&event=%s&format=%s"
      [.str "string" r.Token, .str "string" instrument, .str "string" event, .str "redcap.ResponseFormat" r.ResponseFormat]
  | .ExportSurveyQueueLink recordID instrument event =>
    Sprintf "token=%s&content=surveyQueueLink&record=%s&instrument=%s&event=%s&format=%s"
      [.str "string" r.Token, .str "string" recordID, .str "string" instrument, .str "string" event, .str "redcap.ResponseFormat" r.ResponseFormat]
  | .ExportSurveyReturnCode recordID instrument event =>
    Sprintf "token=%s&content=surveyReturnCode&record=%s&instrument=%s&event=%s&format=%s"
      [.str "string" r.Token, .str "string" recordID, .str "string" instrument, .str "string" event, .str "redcap.ResponseFormat" r.ResponseFormat]
  | .ExportDagMaps =>
    Sprintf "token=%s&content=userDagMapping&format=%s"
      [.str "string" r.Token, .str "redcap.ResponseFormat" r.ResponseFormat]
  | .ExportUserRoles =>
    Sprintf "token=%s&content=userRole&format=%s"
      [.str "string" r.Token, .str "redcap.ResponseFormat" r.ResponseFormat]
  | .ExportUsers =>
    Sprintf "token=%s&content=user&format=%s"
      [.str "string" r.Token, .str "redcap.ResponseFormat" r.ResponseFormat]
  | .ImportArms =>
    Sprintf "token=%s&content=arm&action=import&override=0&format=%s&data=[\x7b\\\"arm_num\\\":\\\"1\\\",\\\"name\\\":\\\"Arm%201\\\"\x7d]"
      [.str "string" r.Token, .str "redcap.ResponseFormat" r.ResponseFormat]
  | .ImportDags =>
    Sprintf "token=%s&content=dag&action=import&format=%s&data=[\x7b\"data_access_group_name\":\"Group%20API\",\"unique_group_name\":\"\"\x7d]"
      [.str "string" r.Token, .str "redcap.ResponseFormat" r.ResponseFormat]
  | .ImportEvents =>
    Sprintf "token=%s&content=event&action=import&override=0&format=%s&data=[\x7b\\\"event_name\\\":\\\"Event%201\\\",\\\"arm_num\\\":\\\"1\\\",\\\"day_offset\\\":\\\"0\\\",\\\"offset_min\\\":\\\"0\\\",\\\"offset_max\\\":\\\"0\\\",\\\"unique_event_name\\\":\\\"event_1_arm_1\\\"\x7d]"
      [.str "string" r.Token, .str "redcap.ResponseFormat" r.ResponseFormat]
  | .ImportFile =>
    Sprintf ""
      [.str "string" r.Token, .str "redcap.ResponseFormat" r.ResponseFormat]
  | .ImportInstrumentEventMaps =>
    Sprintf "token=%s&content=formEventMapping&format=%s&data=[\x7b\\\"arm\\\":\x7b\\\"number\\\":\\\"1\\\",\\\"event\\\":[\x7b\\\"unique_event_name\\\":\\\"event_1_arm_1\\\",\\\"form\\\":[\\\"instr_1\\\",\\\"instr_2\\\"]\x7d]\x7d\x7d,\x7b\\\"arm\\\":\x7b\\\"number\\\":\\\"2\\\",\\\"event\\\":[\x7b\\\"unique_event_name\\\":\\\"event_2_arm_1\\\",\\\"form\\\":[\\\"instr_1\\\"]\x7d]\x7d\x7d]"
      [.str "string" r.Token, .str "redcap.ResponseFormat" r.ResponseFormat]
  | .ImportProject =>
    Sprintf "token=$API_SUPER_TOKEN&content=project&format=%s&data=[\x7b\"project_title\":\"New%20Project%20via%20API\",\"purpose\":0,\"purpose_other\":\"\",\"project_note\":\"Some%20notes%20about%20the%20project\"\x7d]"
      [.str "string" r.Token, .str "redcap.ResponseFormat" r.ResponseFormat]
  | .ImportRecords =>
    Sprintf ""
      [.str "string" r.Token, .str "redcap.ResponseFormat" r.ResponseFormat]
  | .ImportUserDagMaps =>
    Sprintf "token=%s&content=userDagMapping&action=import&format=%s&data=[\x7b\"username\":\"testuser\",\"redcap_data_access_group\":\"api_testing_group\"\x7d]"
      [.str "string" r.Token, .str "redcap.ResponseFormat" r.ResponseFormat]
  | .ImportUserRoles =>
    Sprintf "token=%s&content=userRole&format=%s&data=[\x7b\"unique_role_name\":\"U-2119C4Y87T\",\"role_label\":\"Project Manager\",\"data_access_group\":\"1\",\"data_export\":\"0\",\"mobile_app\":\"0\",\"mobile_app_download_data\":\"0\",\"lock_records_all_forms\":\"0\",\"lock_records\":\"0\",\"lock_records_customization\":\"0\",\"record_delete\":\"0\",\"record_rename\":\"0\",\"record_create\":\"1\",\"api_import\":\"1\",\"api_export\":\"1\",\"api_modules\":\"1\",\"data_quality_execute\":\"1\",\"data_quality_create\":\"1\",\"file_repository\":\"1\",\"logging\":\"1\",\"data_comparison_tool\":\"1\",\"data_import_tool\":\"1\",\"calendar\":\"1\",\"stats_and_charts\":\"1\",\"reports\":\"1\",\"user_rights\":\"1\",\"design\":\"1\"\x7d]"
      [.str "string" r.Token, .str "redcap.ResponseFormat" r.ResponseFormat]
  | .ImportUsers =>
    Sprintf "token=%s&content=user&format=%s&data=[\x7b\"username\":\"test_user_47\",\"expiration\":\"\",\"data_access_group\":\"1\",\"data_export\":\"0\",\"mobile_app\":\"0\",\"mobile_app_download_data\":\"0\",\"lock_record_multiform\":\"0\",\"lock_record\":\"0\",\"lock_record_customize\":\"0\",\"record_delete\":\"0\",\"record_rename\":\"0\",\"record_create\":\"1\",\"api_import\":\"1\",\"api_export\":\"1\",\"api_modules\":\"1\",\"data_quality_execute\":\"1\",\"data_quality_design\":\"1\",\"file_repository\":\"1\",\"data_logging\":\"1\",\"data_comparison_tool\":\"1\",\"data_import_tool\":\"1\",\"calendar\":\"1\",\"graphical\":\"1\",\"reports\":\"1\",\"user_rights\":\"1\",\"design\":\"1\"\x7d]"
      [.str "string" r.Token, .str "redcap.ResponseFormat" r.ResponseFormat]
  | .RenameRecord record_id arm record_id_new =>
    Sprintf "token=%s&action=rename&content=record&record=%s&new_record_name=%s&arm=%s&returnFormat=%s"
      [.str "string" r.Token, .str "string" record_id, .str "string" record_id_new, .str "string" arm, .str "redcap.ResponseFormat" r.ResponseFormat]
  | .SwitchDag dag =>
    Sprintf "token=%s&content=dag&action=switch&format=%s&dag=%s"
      [.str "string" r.Token, .str "redcap.ResponseFormat" r.ResponseFormat, .str "string" dag]

/-! ## Request, response and the shared skeleton of the methods -/

/-- The bytes of a response body. -/
abbrev Bytes := List (Fin 256)

/-- An `http.Request` as far as the methods determine it. -/
structure Request where
  Method : String
  URL : String
  Body : String
  Header : List (String × String)
  deriving DecidableEq, Repr

/-- `req.Header.Set(key, value)`: the entry under `key` is replaced. -/
def Request.setHeader (req : Request) (key value : String) : Request :=
  { req with Header := req.Header.filter (fun kv => kv.1 ≠ key) ++ [(key, value)] }

/-- An `http.Response` as far as the methods read it: `Body` is what
`io.ReadAll(resp.Body)` gives, the bytes or the error of the read. -/
structure Response where
  StatusCode : Int
  Body : Except String Bytes

/-- The world a call runs in: the error `http.NewRequest` reports for a method and URL
(`none` when it builds the request) and what `client.Do` answers to a request. -/
structure Net where
  newRequestErr : String → String → Option String
  Do : Request → Except String Response

/-- How a call ends: it returns `(bodyText, err)` to its caller, or `log.Fatal` writes
the message to the log and exits the process. -/
inductive Outcome where
  | returned (bodyText : Bytes) (err : Option String)
  | fatal (logged : String)
  deriving DecidableEq, Repr

/-- A finished call: the requests handed to `client.Do`, in order, and the outcome. -/
structure Run where
  sent : List Request
  outcome : Outcome
  deriving DecidableEq, Repr

/-- The three error branches of a method. -/
inductive Stage where
  | create
  | send
  | read
  deriving DecidableEq, Repr

/-- The text `log.Fatal` is given ahead of the error: `DeleteArms` labels its three
branches, every other method passes the error alone. -/
def logLabel : Call → Stage → String
  | .DeleteArms _, .create => "Error creating HTTP request: "
  | .DeleteArms _, .send => "Error sending HTTP request: "
  | .DeleteArms _, .read => "Error reading response body: "
  | _, _ => ""

/-- The request after `http.NewRequest("POST", r.URL, data)` and the two `Header.Set`. -/
def request (r : RedCapClient) (formating : String) : Request :=
  ((Request.mk "POST" r.URL formating []).setHeader "Content-Type"
    "application/x-www-form-urlencoded").setHeader "Accept" "application/json"

/-- The statements every method runs after `formating` is built.  Thirteen methods also
print the bytes read to standard output before they return; standard output is not part
of a `Run`. -/
def post (net : Net) (r : RedCapClient) (call : Call) (formating : String) : Run :=
  match net.newRequestErr "POST" r.URL with
  | some err => ⟨[], .fatal (logLabel call .create ++ err)⟩
  | none =>
    match net.Do (request r formating) with
    | .error err => ⟨[request r formating], .fatal (logLabel call .send ++ err)⟩
    | .ok resp =>
      match resp.Body with
      | .error err => ⟨[request r formating], .fatal (logLabel call .read ++ err)⟩
      | .ok bodyText => ⟨[request r formating], .returned bodyText none⟩

/-- A method call from entry to exit. -/
def invoke (net : Net) (r : RedCapClient) (call : Call) : Option Run :=
  (formating r call).map (post net r call)

/-! ## Sample clients and networks -/

/-- A client as the tests build it: a token, an endpoint, format json. -/
def sampleClient : RedCapClient :=
  ⟨"ABC", "https://redcap.example.edu/api/", JSON⟩

/-- A network where every request is built and `client.Do` fails to connect. -/
def unreachableNet : Net :=
  ⟨fun _ _ => none, fun _ => .error "dial tcp 192.0.2.1:443: connect: connection refused"⟩

/-- A network where every request is answered with the given status code and body. -/
def answeringNet (code : Int) (body : Bytes) : Net :=
  ⟨fun _ _ => none, fun _ => .ok ⟨code, .ok body⟩⟩

/-! ## The indexed fragment, as the specification words it -/

/-- One indexed entry `key[i]=v`: the key, the decimal index in brackets, `=`, and the
value copied as it is. -/
def indexedEntry (key : String) (i : Nat) (v : String) : String :=
  key ++ "[" ++ toString i ++ "]=" ++ v

/-- The entries for the values `vs`, numbered from `i` in input order and concatenated
with nothing between them. -/
def entriesFrom (key : String) : Nat → List String → String
  | _, [] => ""
  | i, v :: vs => indexedEntry key i v ++ entriesFrom key (i + 1) vs

/-- The fragment `key[0]=v0key[1]=v1...key[N-1]=v(N-1)` in the words of the
specification: the values are paired with their positions 0, 1, ..., each pair is turned
into its entry, and the entries are joined in that order with no separator. -/
def indexedEntries (key : String) (vs : List String) : String :=
  String.join (vs.enum.map fun p => indexedEntry key p.1 p.2)

/-- The key `parameterBuilder` writes before each index: the `switch` of the source,
read as a table from builder kind to the text ahead of `[%d]=%s` in its format. -/
def keyOf (builder : BuilderType) : String :=
  if builder = Dags then "dags"
  else if builder = Arms then ""
  else if builder = Events then "events"
  else if builder = UserRoles then "roles"
  else if builder = Users then "users"
  else ""

/-- The body of each call written out: the text of its template with the operands in
place, which `formating_eq` proves to be what `fmt.Sprintf` returns. -/
def assembled (r : RedCapClient) : Call → String
  | .DeleteArms arms =>
    "token=" ++ r.Token ++ "&content=arm&action=delete&format=" ++ r.ResponseFormat ++
      "&arms=" ++ entriesFrom "" 0 arms
  | .DeleteDags dags =>
    "token=" ++ r.Token ++ "&content=dag&action=delete&format=" ++ r.ResponseFormat ++ "&" ++
      entriesFrom "dags" 0 dags
  | .DeleteEvents events =>
    "token=" ++ r.Token ++ "&content=event&action=delete&format=" ++ r.ResponseFormat ++ "&" ++
      entriesFrom "events" 0 events
  | .DeleteFile record field event =>
    "token=" ++ r.Token ++ "&content=file&action=delete&record=" ++ record ++ "&field=" ++
      field ++ "&event=" ++ event
  | .DeleteRecords records arms instrument =>
    "token=" ++ r.Token ++ "&action=delete&content=record&records[0]=" ++ records ++ "&arm=" ++
      arms ++ "&instrument=" ++ instrument ++ "&event=visit_1_arm_1&returnformat=" ++
      r.ResponseFormat
  | .DeleteUserRoles roles =>
    "token=" ++ r.Token ++ "&content=userRole&action=delete&format=" ++ r.ResponseFormat ++
      "&" ++ entriesFrom "roles" 0 roles
  | .DeleteUsers users =>
    "token=" ++ r.Token ++ "&content=user&action=delete&format=" ++ r.ResponseFormat ++ "&" ++
      entriesFrom "users" 0 users
  | .ExportArms =>
    "token=" ++ r.Token ++ "&content=arm&format=" ++ r.ResponseFormat
  | .ExportDags =>
    "token=" ++ r.Token ++ "&content=dag&format=" ++ r.ResponseFormat
  | .ExportEvents =>
    "token=" ++ r.Token ++ "&content=event&format=" ++ r.ResponseFormat ++ "&arms="
  | .ExportFieldNames feild =>
    "token=" ++ r.Token ++ "&content=exportFieldNames&format=" ++ r.ResponseFormat ++
      "&field=" ++ feild
  | .ExportFile record feild event =>
    "token=" ++ r.Token ++ "&content=file&action=export&record=" ++ record ++ "&field=" ++
      feild ++ "&event=" ++ event
  | .ExportInstrumentEventMaps =>
    "token=" ++ r.Token ++ "&content=formEventMapping&format=" ++ r.ResponseFormat
  | .ExportInstrumentPDF =>
    "token=" ++ r.Token ++ "&content=pdf&format=" ++ r.ResponseFormat
  | .ExportInstruments =>
    "token=" ++ r.Token ++ "&content=instrument&format=" ++ r.ResponseFormat
  | .ExportLogging startTime endTime =>
    "token=" ++ r.Token ++ "&content=log&format=" ++ r.ResponseFormat ++
      "&logtype=&user=&record=&beginTime=" ++ startTime ++ "&endTime=" ++ endTime
  | .ExportMetadata =>
    "token=" ++ r.Token ++ "&content=metadata&format=" ++ r.ResponseFormat
  | .ExportProjectXML =>
    "token=" ++ r.Token ++
      "&content=project_xml&returnMetadataOnly=false&exportSurveyFields=false&exportDataAccessGroups=false&returnformat=" ++
      r.ResponseFormat
  | .ExportProject =>
    "token=" ++ r.Token ++ "&content=project&format=" ++ r.ResponseFormat
  | .ExportRecords =>
    "token=" ++ r.Token ++ "&content=record&format=" ++ r.ResponseFormat ++ "&type=flat"
  | .ExportRedcapVersion =>
    "token=" ++ r.Token ++ "&content=version"
  | .ExportReports reportID =>
    "token=" ++ r.Token ++ "&content=report&format=" ++ r.ResponseFormat ++ "&report_id=" ++
      reportID
  | .ExportSurveyLink recordID instrument event =>
    "token=" ++ r.Token ++ "&content=surveyLink&record=" ++ recordID ++ "&instrument=" ++
      instrument ++ "&event=" ++ event ++ "&format=" ++ r.ResponseFormat
  | .ExportSurveyParticipants instrument event =>
    "token=" ++ r.Token ++ "&content=participantList&instrument=" ++ instrument ++ "&event=" ++
      event ++ "&format=" ++ r.ResponseFormat
  | .ExportSurveyQueueLink recordID instrument event =>
    "token=" ++ r.Token ++ "&content=surveyQueueLink&record=" ++ recordID ++ "&instrument=" ++
      instrument ++ "&event=" ++ event ++ "&format=" ++ r.ResponseFormat
  | .ExportSurveyReturnCode recordID instrument event =>
    "token=" ++ r.Token ++ "&content=surveyReturnCode&record=" ++ recordID ++ "&instrument=" ++
      instrument ++ "&event=" ++ event ++ "&format=" ++ r.ResponseFormat
  | .ExportDagMaps =>
    "token=" ++ r.Token ++ "&content=userDagMapping&format=" ++ r.ResponseFormat
  | .ExportUserRoles =>
    "token=" ++ r.Token ++ "&content=userRole&format=" ++ r.ResponseFormat
  | .ExportUsers =>
    "token=" ++ r.Token ++ "&content=user&format=" ++ r.ResponseFormat
  | .ImportArms =>
    "token=" ++ r.Token ++ "&content=arm&action=import&override=0&format=" ++
      r.ResponseFormat ++
      "&data=[\x7b\\\"arm_num\\\":\\\"1\\\",\\\"name\\\":\\\"Arm%!\\(MISSING)\"\x7d]"
  | .ImportDags =>
    "token=" ++ r.Token ++ "&content=dag&action=import&format=" ++ r.ResponseFormat ++
      "&data=[\x7b\"data_access_group_name\":\"Group%!A(MISSING)PI\",\"unique_group_name\":\"\"\x7d]"
  | .ImportEvents =>
    "token=" ++ r.Token ++ "&content=event&action=import&override=0&format=" ++
      r.ResponseFormat ++
      "&data=[\x7b\\\"event_name\\\":\\\"Event%!\\(MISSING)\",\\\"arm_num\\\":\\\"1\\\",\\\"day_offset\\\":\\\"0\\\",\\\"offset_min\\\":\\\"0\\\",\\\"offset_max\\\":\\\"0\\\",\\\"unique_event_name\\\":\\\"event_1_arm_1\\\"\x7d]"
  | .ImportFile =>
    "%!(EXTRA string=" ++ r.Token ++ ", redcap.ResponseFormat=" ++ r.ResponseFormat ++ ")"
  | .ImportInstrumentEventMaps =>
    "token=" ++ r.Token ++ "&content=formEventMapping&format=" ++ r.ResponseFormat ++
      "&data=[\x7b\\\"arm\\\":\x7b\\\"number\\\":\\\"1\\\",\\\"event\\\":[\x7b\\\"unique_event_name\\\":\\\"event_1_arm_1\\\",\\\"form\\\":[\\\"instr_1\\\",\\\"instr_2\\\"]\x7d]\x7d\x7d,\x7b\\\"arm\\\":\x7b\\\"number\\\":\\\"2\\\",\\\"event\\\":[\x7b\\\"unique_event_name\\\":\\\"event_2_arm_1\\\",\\\"form\\\":[\\\"instr_1\\\"]\x7d]\x7d\x7d]"
  | .ImportProject =>
    "token=$API_SUPER_TOKEN&content=project&format=" ++ r.Token ++
      "&data=[\x7b\"project_title\":\"New%!P(redcap.ResponseFormat=" ++
      String.mk (pad 20 r.ResponseFormat.data) ++
      ")roject%!v(MISSING)ia%!A(MISSING)PI\",\"purpose\":0,\"purpose_other\":\"\",\"project_note\":\"Some%!n(MISSING)otes%!a(MISSING)bout%!t(MISSING)he%!p(MISSING)roject\"\x7d]"
  | .ImportRecords =>
    "%!(EXTRA string=" ++ r.Token ++ ", redcap.ResponseFormat=" ++ r.ResponseFormat ++ ")"
  | .ImportUserDagMaps =>
    "token=" ++ r.Token ++ "&content=userDagMapping&action=import&format=" ++
      r.ResponseFormat ++
      "&data=[\x7b\"username\":\"testuser\",\"redcap_data_access_group\":\"api_testing_group\"\x7d]"
  | .ImportUserRoles =>
    "token=" ++ r.Token ++ "&content=userRole&format=" ++ r.ResponseFormat ++
      "&data=[\x7b\"unique_role_name\":\"U-2119C4Y87T\",\"role_label\":\"Project Manager\",\"data_access_group\":\"1\",\"data_export\":\"0\",\"mobile_app\":\"0\",\"mobile_app_download_data\":\"0\",\"lock_records_all_forms\":\"0\",\"lock_records\":\"0\",\"lock_records_customization\":\"0\",\"record_delete\":\"0\",\"record_rename\":\"0\",\"record_create\":\"1\",\"api_import\":\"1\",\"api_export\":\"1\",\"api_modules\":\"1\",\"data_quality_execute\":\"1\",\"data_quality_create\":\"1\",\"file_repository\":\"1\",\"logging\":\"1\",\"data_comparison_tool\":\"1\",\"data_import_tool\":\"1\",\"calendar\":\"1\",\"stats_and_charts\":\"1\",\"reports\":\"1\",\"user_rights\":\"1\",\"design\":\"1\"\x7d]"
  | .ImportUsers =>
    "token=" ++ r.Token ++ "&content=user&format=" ++ r.ResponseFormat ++
      "&data=[\x7b\"username\":\"test_user_47\",\"expiration\":\"\",\"data_access_group\":\"1\",\"data_export\":\"0\",\"mobile_app\":\"0\",\"mobile_app_download_data\":\"0\",\"lock_record_multiform\":\"0\",\"lock_record\":\"0\",\"lock_record_customize\":\"0\",\"record_delete\":\"0\",\"record_rename\":\"0\",\"record_create\":\"1\",\"api_import\":\"1\",\"api_export\":\"1\",\"api_modules\":\"1\",\"data_quality_execute\":\"1\",\"data_quality_design\":\"1\",\"file_repository\":\"1\",\"data_logging\":\"1\",\"data_comparison_tool\":\"1\",\"data_import_tool\":\"1\",\"calendar\":\"1\",\"graphical\":\"1\",\"reports\":\"1\",\"user_rights\":\"1\",\"design\":\"1\"\x7d]"
  | .RenameRecord record_id arm record_id_new =>
    "token=" ++ r.Token ++ "&action=rename&content=record&record=" ++ record_id ++
      "&new_record_name=" ++ record_id_new ++ "&arm=" ++ arm ++ "&returnFormat=" ++
      r.ResponseFormat
  | .SwitchDag dag =>
    "token=" ++ r.Token ++ "&content=dag&action=switch&format=" ++ r.ResponseFormat ++
      "&dag=" ++ dag

/-! ## Reading a body for its `format=` values -/

/-- The text `format=`. -/
def formatKey : List Char := "format=".data

/-- The text `json`. -/
def jsonText : List Char := "json".data

/-- Every occurrence of `format=` in `s` is immediately followed by `json`. -/
def FormatIsJson (s : List Char) : Prop :=
  ∀ pre suf, s = pre ++ formatKey ++ suf → jsonText <+: suf

/-- The strings a caller passes to a method. -/
def Call.args : Call → List String
  | .DeleteArms arms => arms
  | .DeleteDags dags => dags
  | .DeleteEvents events => events
  | .DeleteFile record field event => [record, field, event]
  | .DeleteRecords records arms instrument => [records, arms, instrument]
  | .DeleteUserRoles roles => roles
  | .DeleteUsers users => users
  | .ExportFieldNames feild => [feild]
  | .ExportFile record feild event => [record, feild, event]
  | .ExportLogging startTime endTime => [startTime, endTime]
  | .ExportReports reportID => [reportID]
  | .ExportSurveyLink recordID instrument event => [recordID, instrument, event]
  | .ExportSurveyParticipants instrument event => [instrument, event]
  | .ExportSurveyQueueLink recordID instrument event => [recordID, instrument, event]
  | .ExportSurveyReturnCode recordID instrument event => [recordID, instrument, event]
  | .RenameRecord record_id arm record_id_new => [record_id, arm, record_id_new]
  | .SwitchDag dag => [dag]
  | _ => []

/-- What a left-to-right reader of a body has in hand: the first `k` characters of
`format=` just read, or `format=` and the first `j` characters of `json` after it, or an
occurrence of `format=` already passed with something else behind it. -/
inductive Seen where
  | key (k : Fin 7)
  | value (j : Fin 4)
  | wrong
  deriving DecidableEq, Fintype

/-- One character read. -/
def Seen.step : Seen → Char → Seen
  | .key k, c =>
    if c = formatKey.getD k ' ' then (if k = 6 then .value 0 else .key (k + 1))
    else if c = 'f' then .key 1 else .key 0
  | .value j, c =>
    if c = jsonText.getD j ' ' then (if j = 3 then .key 0 else .value (j + 1))
    else .wrong
  | .wrong, _ => .wrong

/-- A whole text read. -/
def Seen.read (q : Seen) (s : List Char) : Seen :=
  s.foldl Seen.step q

/-- The reader stands outside a `format=` value. -/
def Seen.settled : Seen → Bool
  | .key _ => true
  | _ => false

/-- A text that, read from a fresh start, leaves the reader settled. -/
def Calm (x : String) : Prop :=
  ((Seen.key 0).read x.data).settled = true

/-- A body as fixed text with holes for the operands. -/
inductive Piece where
  | lit (s : String)
  | hole
  deriving DecidableEq, Repr

/-- The holes of a skeleton filled, in order, with the given texts. -/
def fill : List Piece → List String → String
  | [], _ => ""
  | .lit s :: ps, xs => s ++ fill ps xs
  | .hole :: ps, x :: xs => x ++ fill ps xs
  | .hole :: ps, [] => fill ps []

/-- What is known of the reader while a skeleton is checked: its exact state, or only
that it is settled. -/
inductive Known where
  | exactly (q : Seen)
  | settled
  deriving DecidableEq

/-- The check of a skeleton: fixed text is read; a hole must be met with `format=`
nowhere in hand, and the fixed text behind a hole must bring every settled reader to the
same state. -/
def accepts : Known → List Piece → Bool
  | .exactly q, [] => q.settled
  | .settled, [] => true
  | .exactly q, .lit s :: ps => accepts (.exactly (q.read s.data)) ps
  | .settled, .lit s :: ps =>
    decide (∀ k : Fin 7, (Seen.key k).read s.data = (Seen.key 0).read s.data)
      && accepts (.exactly ((Seen.key 0).read s.data)) ps
  | .exactly q, .hole :: ps => decide (q = .key 0) && accepts .settled ps
  | .settled, .hole :: _ => false

/-- The skeleton of each body for a client whose response format is json. -/
def skeleton : Call → List Piece
  | .DeleteArms _ =>
    [.lit "token=", .hole, .lit "&content=arm&action=delete&format=json&arms=", .hole]
  | .DeleteDags _ =>
    [.lit "token=", .hole, .lit "&content=dag&action=delete&format=json&", .hole]
  | .DeleteEvents _ =>
    [.lit "token=", .hole, .lit "&content=event&action=delete&format=json&", .hole]
  | .DeleteFile _ _ _ =>
    [.lit "token=", .hole, .lit "&content=file&action=delete&record=", .hole, .lit "&field=",
      .hole, .lit "&event=", .hole]
  | .DeleteRecords _ _ _ =>
    [.lit "token=", .hole, .lit "&action=delete&content=record&records[0]=", .hole, .lit "&arm=",
      .hole, .lit "&instrument=", .hole, .lit "&event=visit_1_arm_1&returnformat=json"]
  | .DeleteUserRoles _ =>
    [.lit "token=", .hole, .lit "&content=userRole&action=delete&format=json&", .hole]
  | .DeleteUsers _ =>
    [.lit "token=", .hole, .lit "&content=user&action=delete&format=json&", .hole]
  | .ExportArms =>
    [.lit "token=", .hole, .lit "&content=arm&format=json"]
  | .ExportDags =>
    [.lit "token=", .hole, .lit "&content=dag&format=json"]
  | .ExportEvents =>
    [.lit "token=", .hole, .lit "&content=event&format=json&arms="]
  | .ExportFieldNames _ =>
    [.lit "token=", .hole, .lit "&content=exportFieldNames&format=json&field=", .hole]
  | .ExportFile _ _ _ =>
    [.lit "token=", .hole, .lit "&content=file&action=export&record=", .hole, .lit "&field=",
      .hole, .lit "&event=", .hole]
  | .ExportInstrumentEventMaps =>
    [.lit "token=", .hole, .lit "&content=formEventMapping&format=json"]
  | .ExportInstrumentPDF =>
    [.lit "token=", .hole, .lit "&content=pdf&format=json"]
  | .ExportInstruments =>
    [.lit "token=", .hole, .lit "&content=instrument&format=json"]
  | .ExportLogging _ _ =>
    [.lit "token=", .hole, .lit "&content=log&format=json&logtype=&user=&record=&beginTime=",
      .hole, .lit "&endTime=", .hole]
  | .ExportMetadata =>
    [.lit "token=", .hole, .lit "&content=metadata&format=json"]
  | .ExportProjectXML =>
    [.lit "token=", .hole,
      .lit "&content=project_xml&returnMetadataOnly=false&exportSurveyFields=false&exportDataAccessGroups=false&returnformat=json"]
  | .ExportProject =>
    [.lit "token=", .hole, .lit "&content=project&format=json"]
  | .ExportRecords =>
    [.lit "token=", .hole, .lit "&content=record&format=json&type=flat"]
  | .ExportRedcapVersion =>
    [.lit "token=", .hole, .lit "&content=version"]
  | .ExportReports _ =>
    [.lit "token=", .hole, .lit "&content=report&format=json&report_id=", .hole]
  | .ExportSurveyLink _ _ _ =>
    [.lit "token=", .hole, .lit "&content=surveyLink&record=", .hole, .lit "&instrument=", .hole,
      .lit "&event=", .hole, .lit "&format=json"]
  | .ExportSurveyParticipants _ _ =>
    [.lit "token=", .hole, .lit "&content=participantList&instrument=", .hole, .lit "&event=",
      .hole, .lit "&format=json"]
  | .ExportSurveyQueueLink _ _ _ =>
    [.lit "token=", .hole, .lit "&content=surveyQueueLink&record=", .hole, .lit "&instrument=",
      .hole, .lit "&event=", .hole, .lit "&format=json"]
  | .ExportSurveyReturnCode _ _ _ =>
    [.lit "token=", .hole, .lit "&content=surveyReturnCode&record=", .hole, .lit "&instrument=",
      .hole, .lit "&event=", .hole, .lit "&format=json"]
  | .ExportDagMaps =>
    [.lit "token=", .hole, .lit "&content=userDagMapping&format=json"]
  | .ExportUserRoles =>
    [.lit "token=", .hole, .lit "&content=userRole&format=json"]
  | .ExportUsers =>
    [.lit "token=", .hole, .lit "&content=user&format=json"]
  | .ImportArms =>
    [.lit "token=", .hole,
      .lit "&content=arm&action=import&override=0&format=json&data=[\x7b\\\"arm_num\\\":\\\"1\\\",\\\"name\\\":\\\"Arm%!\\(MISSING)\"\x7d]"]
  | .ImportDags =>
    [.lit "token=", .hole,
      .lit "&content=dag&action=import&format=json&data=[\x7b\"data_access_group_name\":\"Group%!A(MISSING)PI\",\"unique_group_name\":\"\"\x7d]"]
  | .ImportEvents =>
    [.lit "token=", .hole,
      .lit "&content=event&action=import&override=0&format=json&data=[\x7b\\\"event_name\\\":\\\"Event%!\\(MISSING)\",\\\"arm_num\\\":\\\"1\\\",\\\"day_offset\\\":\\\"0\\\",\\\"offset_min\\\":\\\"0\\\",\\\"offset_max\\\":\\\"0\\\",\\\"unique_event_name\\\":\\\"event_1_arm_1\\\"\x7d]"]
  | .ImportFile =>
    [.lit "%!(EXTRA string=", .hole, .lit ", redcap.ResponseFormat=json)"]
  | .ImportInstrumentEventMaps =>
    [.lit "token=", .hole,
      .lit "&content=formEventMapping&format=json&data=[\x7b\\\"arm\\\":\x7b\\\"number\\\":\\\"1\\\",\\\"event\\\":[\x7b\\\"unique_event_name\\\":\\\"event_1_arm_1\\\",\\\"form\\\":[\\\"instr_1\\\",\\\"instr_2\\\"]\x7d]\x7d\x7d,\x7b\\\"arm\\\":\x7b\\\"number\\\":\\\"2\\\",\\\"event\\\":[\x7b\\\"unique_event_name\\\":\\\"event_2_arm_1\\\",\\\"form\\\":[\\\"instr_1\\\"]\x7d]\x7d\x7d]"]
  | .ImportProject =>
    [.lit "token=$API_SUPER_TOKEN&content=project&format=", .hole,
      .lit "&data=[\x7b\"project_title\":\"New%!P(redcap.ResponseFormat=                json)roject%!v(MISSING)ia%!A(MISSING)PI\",\"purpose\":0,\"purpose_other\":\"\",\"project_note\":\"Some%!n(MISSING)otes%!a(MISSING)bout%!t(MISSING)he%!p(MISSING)roject\"\x7d]"]
  | .ImportRecords =>
    [.lit "%!(EXTRA string=", .hole, .lit ", redcap.ResponseFormat=json)"]
  | .ImportUserDagMaps =>
    [.lit "token=", .hole,
      .lit "&content=userDagMapping&action=import&format=json&data=[\x7b\"username\":\"testuser\",\"redcap_data_access_group\":\"api_testing_group\"\x7d]"]
  | .ImportUserRoles =>
    [.lit "token=", .hole,
      .lit "&content=userRole&format=json&data=[\x7b\"unique_role_name\":\"U-2119C4Y87T\",\"role_label\":\"Project Manager\",\"data_access_group\":\"1\",\"data_export\":\"0\",\"mobile_app\":\"0\",\"mobile_app_download_data\":\"0\",\"lock_records_all_forms\":\"0\",\"lock_records\":\"0\",\"lock_records_customization\":\"0\",\"record_delete\":\"0\",\"record_rename\":\"0\",\"record_create\":\"1\",\"api_import\":\"1\",\"api_export\":\"1\",\"api_modules\":\"1\",\"data_quality_execute\":\"1\",\"data_quality_create\":\"1\",\"file_repository\":\"1\",\"logging\":\"1\",\"data_comparison_tool\":\"1\",\"data_import_tool\":\"1\",\"calendar\":\"1\",\"stats_and_charts\":\"1\",\"reports\":\"1\",\"user_rights\":\"1\",\"design\":\"1\"\x7d]"]
  | .ImportUsers =>
    [.lit "token=", .hole,
      .lit "&content=user&format=json&data=[\x7b\"username\":\"test_user_47\",\"expiration\":\"\",\"data_access_group\":\"1\",\"data_export\":\"0\",\"mobile_app\":\"0\",\"mobile_app_download_data\":\"0\",\"lock_record_multiform\":\"0\",\"lock_record\":\"0\",\"lock_record_customize\":\"0\",\"record_delete\":\"0\",\"record_rename\":\"0\",\"record_create\":\"1\",\"api_import\":\"1\",\"api_export\":\"1\",\"api_modules\":\"1\",\"data_quality_execute\":\"1\",\"data_quality_design\":\"1\",\"file_repository\":\"1\",\"data_logging\":\"1\",\"data_comparison_tool\":\"1\",\"data_import_tool\":\"1\",\"calendar\":\"1\",\"graphical\":\"1\",\"reports\":\"1\",\"user_rights\":\"1\",\"design\":\"1\"\x7d]"]
  | .RenameRecord _ _ _ =>
    [.lit "token=", .hole, .lit "&action=rename&content=record&record=", .hole,
      .lit "&new_record_name=", .hole, .lit "&arm=", .hole, .lit "&returnFormat=json"]
  | .SwitchDag _ =>
    [.lit "token=", .hole, .lit "&content=dag&action=switch&format=json&dag=", .hole]

/-- The texts that fill the holes of the skeleton: the token, the arguments and, for the
methods that take a list, the fragment built from it. -/
def holes (r : RedCapClient) : Call → List String
  | .DeleteArms arms => [r.Token, entriesFrom "" 0 arms]
  | .DeleteDags dags => [r.Token, entriesFrom "dags" 0 dags]
  | .DeleteEvents events => [r.Token, entriesFrom "events" 0 events]
  | .DeleteFile record field event => [r.Token, record, field, event]
  | .DeleteRecords records arms instrument => [r.Token, records, arms, instrument]
  | .DeleteUserRoles roles => [r.Token, entriesFrom "roles" 0 roles]
  | .DeleteUsers users => [r.Token, entriesFrom "users" 0 users]
  | .ExportArms => [r.Token]
  | .ExportDags => [r.Token]
  | .ExportEvents => [r.Token]
  | .ExportFieldNames feild => [r.Token, feild]
  | .ExportFile record feild event => [r.Token, record, feild, event]
  | .ExportInstrumentEventMaps => [r.Token]
  | .ExportInstrumentPDF => [r.Token]
  | .ExportInstruments => [r.Token]
  | .ExportLogging startTime endTime => [r.Token, startTime, endTime]
  | .ExportMetadata => [r.Token]
  | .ExportProjectXML => [r.Token]
  | .ExportProject => [r.Token]
  | .ExportRecords => [r.Token]
  | .ExportRedcapVersion => [r.Token]
  | .ExportReports reportID => [r.Token, reportID]
  | .ExportSurveyLink recordID instrument event => [r.Token, recordID, instrument, event]
  | .ExportSurveyParticipants instrument event => [r.Token, instrument, event]
  | .ExportSurveyQueueLink recordID instrument event => [r.Token, recordID, instrument, event]
  | .ExportSurveyReturnCode recordID instrument event => [r.Token, recordID, instrument, event]
  | .ExportDagMaps => [r.Token]
  | .ExportUserRoles => [r.Token]
  | .ExportUsers => [r.Token]
  | .ImportArms => [r.Token]
  | .ImportDags => [r.Token]
  | .ImportEvents => [r.Token]
  | .ImportFile => [r.Token]
  | .ImportInstrumentEventMaps => [r.Token]
  | .ImportProject => [r.Token]
  | .ImportRecords => [r.Token]
  | .ImportUserDagMaps => [r.Token]
  | .ImportUserRoles => [r.Token]
  | .ImportUsers => [r.Token]
  | .RenameRecord record_id arm record_id_new => [r.Token, record_id, record_id_new, arm]
  | .SwitchDag dag => [r.Token, dag]

/-! ## The receiver as state -/

/-- A method run with its receiver `r *RedCapClient` held as state: the body reads the
client, builds `formating` from it and runs the shared statements; it holds no
assignment to a field of `r`, so the state is only ever read. -/
def method (net : Net) (call : Call) : StateT RedCapClient Option Run := do
  let r ← get
  let body ← StateT.lift (formating r call)
  pure (post net r call body)

/-! ## The wire contract, as the specification words it -/

/-- The content verb of each action.  For `ImportFile`, `ImportRecords` and
`ImportProject`, whose bodies the theorems on the field order leave out, the entry is
the verb REDCap names for the action. -/
def contentVerb : Call → String
  | .DeleteArms _ => "arm"
  | .DeleteDags _ => "dag"
  | .DeleteEvents _ => "event"
  | .DeleteFile _ _ _ => "file"
  | .DeleteRecords _ _ _ => "record"
  | .DeleteUserRoles _ => "userRole"
  | .DeleteUsers _ => "user"
  | .ExportArms => "arm"
  | .ExportDags => "dag"
  | .ExportEvents => "event"
  | .ExportFieldNames _ => "exportFieldNames"
  | .ExportFile _ _ _ => "file"
  | .ExportInstrumentEventMaps => "formEventMapping"
  | .ExportInstrumentPDF => "pdf"
  | .ExportInstruments => "instrument"
  | .ExportLogging _ _ => "log"
  | .ExportMetadata => "metadata"
  | .ExportProjectXML => "project_xml"
  | .ExportProject => "project"
  | .ExportRecords => "record"
  | .ExportRedcapVersion => "version"
  | .ExportReports _ => "report"
  | .ExportSurveyLink _ _ _ => "surveyLink"
  | .ExportSurveyParticipants _ _ => "participantList"
  | .ExportSurveyQueueLink _ _ _ => "surveyQueueLink"
  | .ExportSurveyReturnCode _ _ _ => "surveyReturnCode"
  | .ExportDagMaps => "userDagMapping"
  | .ExportUserRoles => "userRole"
  | .ExportUsers => "user"
  | .ImportArms => "arm"
  | .ImportDags => "dag"
  | .ImportEvents => "event"
  | .ImportFile => "file"
  | .ImportInstrumentEventMaps => "formEventMapping"
  | .ImportProject => "project"
  | .ImportRecords => "record"
  | .ImportUserDagMaps => "userDagMapping"
  | .ImportUserRoles => "userRole"
  | .ImportUsers => "user"
  | .RenameRecord _ _ _ => "record"
  | .SwitchDag _ => "dag"

/-- The `action` of each action, when it has one. -/
def actionOf : Call → Option String
  | .DeleteArms _ => some "delete"
  | .DeleteDags _ => some "delete"
  | .DeleteEvents _ => some "delete"
  | .DeleteFile _ _ _ => some "delete"
  | .DeleteRecords _ _ _ => some "delete"
  | .DeleteUserRoles _ => some "delete"
  | .DeleteUsers _ => some "delete"
  | .ExportFile _ _ _ => some "export"
  | .ImportArms => some "import"
  | .ImportDags => some "import"
  | .ImportEvents => some "import"
  | .ImportFile => some "import"
  | .ImportUserDagMaps => some "import"
  | .RenameRecord _ _ _ => some "rename"
  | .SwitchDag _ => some "switch"
  | _ => none

/-- The methods whose body names the action before the content verb. -/
def actionFirst : Call → Bool
  | .DeleteRecords _ _ _ => true
  | .RenameRecord _ _ _ => true
  | _ => false

/-- The methods whose body carries `&format=` right behind the content verb and the
action. -/
def formatThird : Call → Bool
  | .DeleteArms _ => true
  | .DeleteDags _ => true
  | .DeleteEvents _ => true
  | .DeleteUserRoles _ => true
  | .DeleteUsers _ => true
  | .ExportArms => true
  | .ExportDags => true
  | .ExportEvents => true
  | .ExportFieldNames _ => true
  | .ExportInstrumentEventMaps => true
  | .ExportInstrumentPDF => true
  | .ExportInstruments => true
  | .ExportLogging _ _ => true
  | .ExportMetadata => true
  | .ExportProject => true
  | .ExportRecords => true
  | .ExportReports _ => true
  | .ExportDagMaps => true
  | .ExportUserRoles => true
  | .ExportUsers => true
  | .ImportDags => true
  | .ImportInstrumentEventMaps => true
  | .ImportUserDagMaps => true
  | .ImportUserRoles => true
  | .ImportUsers => true
  | .SwitchDag _ => true
  | _ => false

/-- The fields that follow the token: `&content=<verb>` and then `&action=<action>` when
the action has one, or the two the other way round for the methods of `actionFirst`. -/
def leading (call : Call) : String :=
  let action := match actionOf call with
    | some a => "&action=" ++ a
    | none => ""
  if actionFirst call then action ++ "&content=" ++ contentVerb call
  else "&content=" ++ contentVerb call ++ action

/-- The head of a body: `token=<token>`, the leading fields and, for the methods of
`formatThird`, `&format=<format>`. -/
def wireHead (r : RedCapClient) (call : Call) : String :=
  "token=" ++ r.Token ++ leading call
    ++ (if formatThird call then "&format=" ++ r.ResponseFormat else "")

/-- The name of the parameter under which a method sends the response format, for the
methods that send the client's `ResponseFormat` as the value of a parameter. -/
def formatParameter : Call → Option String
  | .DeleteArms _ => some "format"
  | .DeleteDags _ => some "format"
  | .DeleteEvents _ => some "format"
  | .DeleteRecords _ _ _ => some "returnformat"
  | .DeleteUserRoles _ => some "format"
  | .DeleteUsers _ => some "format"
  | .ExportArms => some "format"
  | .ExportDags => some "format"
  | .ExportEvents => some "format"
  | .ExportFieldNames _ => some "format"
  | .ExportInstrumentEventMaps => some "format"
  | .ExportInstrumentPDF => some "format"
  | .ExportInstruments => some "format"
  | .ExportLogging _ _ => some "format"
  | .ExportMetadata => some "format"
  | .ExportProjectXML => some "returnformat"
  | .ExportProject => some "format"
  | .ExportRecords => some "format"
  | .ExportReports _ => some "format"
  | .ExportSurveyLink _ _ _ => some "format"
  | .ExportSurveyParticipants _ _ => some "format"
  | .ExportSurveyQueueLink _ _ _ => some "format"
  | .ExportSurveyReturnCode _ _ _ => some "format"
  | .ExportDagMaps => some "format"
  | .ExportUserRoles => some "format"
  | .ExportUsers => some "format"
  | .ImportArms => some "format"
  | .ImportDags => some "format"
  | .ImportEvents => some "format"
  | .ImportInstrumentEventMaps => some "format"
  | .ImportUserDagMaps => some "format"
  | .ImportUserRoles => some "format"
  | .ImportUsers => some "format"
  | .RenameRecord _ _ _ => some "returnFormat"
  | .SwitchDag _ => some "format"
  | _ => none

/-! ## The fields of a body, in order -/

/-- The fields behind the token: `content=<verb>`, with `action=<action>` behind it when
the action has one, or ahead of it for the methods of `actionFirst`. -/
def leadingFields (call : Call) : List String :=
  match actionOf call with
  | none => ["content=" ++ contentVerb call]
  | some a =>
    if actionFirst call then ["action=" ++ a, "content=" ++ contentVerb call]
    else ["content=" ++ contentVerb call, "action=" ++ a]

/-- The parameters of its own that a method sends ahead of the response format, in
order; for a method that sends no format, all its own parameters.  The fragment of
`parameterBuilder` is one field, as the templates write it. -/
def fieldsBefore : Call → List String
  | .DeleteFile record field event => ["record=" ++ record, "field=" ++ field, "event=" ++ event]
  | .DeleteRecords records arms instrument => ["records[0]=" ++ records, "arm=" ++ arms, "instrument=" ++ instrument, "event=visit_1_arm_1"]
  | .ExportFile record feild event => ["record=" ++ record, "field=" ++ feild, "event=" ++ event]
  | .ExportProjectXML => ["returnMetadataOnly=false", "exportSurveyFields=false", "exportDataAccessGroups=false"]
  | .ExportSurveyLink recordID instrument event => ["record=" ++ recordID, "instrument=" ++ instrument, "event=" ++ event]
  | .ExportSurveyParticipants instrument event => ["instrument=" ++ instrument, "event=" ++ event]
  | .ExportSurveyQueueLink recordID instrument event => ["record=" ++ recordID, "instrument=" ++ instrument, "event=" ++ event]
  | .ExportSurveyReturnCode recordID instrument event => ["record=" ++ recordID, "instrument=" ++ instrument, "event=" ++ event]
  | .ImportArms => ["override=0"]
  | .ImportEvents => ["override=0"]
  | .RenameRecord record_id arm record_id_new => ["record=" ++ record_id, "new_record_name=" ++ record_id_new, "arm=" ++ arm]
  | _ => []

/-- The parameters of its own that a method sends behind the response format, in order. -/
def fieldsAfter : Call → List String
  | .DeleteArms arms => ["arms=" ++ entriesFrom "" 0 arms]
  | .DeleteDags dags => [entriesFrom "dags" 0 dags]
  | .DeleteEvents events => [entriesFrom "events" 0 events]
  | .DeleteUserRoles roles => [entriesFrom "roles" 0 roles]
  | .DeleteUsers users => [entriesFrom "users" 0 users]
  | .ExportEvents => ["arms="]
  | .ExportFieldNames feild => ["field=" ++ feild]
  | .ExportLogging startTime endTime => ["logtype=", "user=", "record=", "beginTime=" ++ startTime, "endTime=" ++ endTime]
  | .ExportRecords => ["type=flat"]
  | .ExportReports reportID => ["report_id=" ++ reportID]
  | .ImportArms => ["data=[\x7b\\\"arm_num\\\":\\\"1\\\",\\\"name\\\":\\\"Arm%!\\(MISSING)\"\x7d]"]
  | .ImportDags => ["data=[\x7b\"data_access_group_name\":\"Group%!A(MISSING)PI\",\"unique_group_name\":\"\"\x7d]"]
  | .ImportEvents => ["data=[\x7b\\\"event_name\\\":\\\"Event%!\\(MISSING)\",\\\"arm_num\\\":\\\"1\\\",\\\"day_offset\\\":\\\"0\\\",\\\"offset_min\\\":\\\"0\\\",\\\"offset_max\\\":\\\"0\\\",\\\"unique_event_name\\\":\\\"event_1_arm_1\\\"\x7d]"]
  | .ImportInstrumentEventMaps => ["data=[\x7b\\\"arm\\\":\x7b\\\"number\\\":\\\"1\\\",\\\"event\\\":[\x7b\\\"unique_event_name\\\":\\\"event_1_arm_1\\\",\\\"form\\\":[\\\"instr_1\\\",\\\"instr_2\\\"]\x7d]\x7d\x7d,\x7b\\\"arm\\\":\x7b\\\"number\\\":\\\"2\\\",\\\"event\\\":[\x7b\\\"unique_event_name\\\":\\\"event_2_arm_1\\\",\\\"form\\\":[\\\"instr_1\\\"]\x7d]\x7d\x7d]"]
  | .ImportUserDagMaps => ["data=[\x7b\"username\":\"testuser\",\"redcap_data_access_group\":\"api_testing_group\"\x7d]"]
  | .ImportUserRoles => ["data=[\x7b\"unique_role_name\":\"U-2119C4Y87T\",\"role_label\":\"Project Manager\",\"data_access_group\":\"1\",\"data_export\":\"0\",\"mobile_app\":\"0\",\"mobile_app_download_data\":\"0\",\"lock_records_all_forms\":\"0\",\"lock_records\":\"0\",\"lock_records_customization\":\"0\",\"record_delete\":\"0\",\"record_rename\":\"0\",\"record_create\":\"1\",\"api_import\":\"1\",\"api_export\":\"1\",\"api_modules\":\"1\",\"data_quality_execute\":\"1\",\"data_quality_create\":\"1\",\"file_repository\":\"1\",\"logging\":\"1\",\"data_comparison_tool\":\"1\",\"data_import_tool\":\"1\",\"calendar\":\"1\",\"stats_and_charts\":\"1\",\"reports\":\"1\",\"user_rights\":\"1\",\"design\":\"1\"\x7d]"]
  | .ImportUsers => ["data=[\x7b\"username\":\"test_user_47\",\"expiration\":\"\",\"data_access_group\":\"1\",\"data_export\":\"0\",\"mobile_app\":\"0\",\"mobile_app_download_data\":\"0\",\"lock_record_multiform\":\"0\",\"lock_record\":\"0\",\"lock_record_customize\":\"0\",\"record_delete\":\"0\",\"record_rename\":\"0\",\"record_create\":\"1\",\"api_import\":\"1\",\"api_export\":\"1\",\"api_modules\":\"1\",\"data_quality_execute\":\"1\",\"data_quality_design\":\"1\",\"file_repository\":\"1\",\"data_logging\":\"1\",\"data_comparison_tool\":\"1\",\"data_import_tool\":\"1\",\"calendar\":\"1\",\"graphical\":\"1\",\"reports\":\"1\",\"user_rights\":\"1\",\"design\":\"1\"\x7d]"]
  | .SwitchDag dag => ["dag=" ++ dag]
  | _ => []

/-- The fields of a body in the order they are sent: the token, the leading fields, the
own parameters ahead of the format, the format under the name of `formatParameter` when
the method sends it, the own parameters behind it. -/
def wireFields (r : RedCapClient) (call : Call) : List String :=
  ("token=" ++ r.Token) :: (leadingFields call ++ fieldsBefore call
    ++ (match formatParameter call with
        | some key => [key ++ "=" ++ r.ResponseFormat]
        | none => [])
    ++ fieldsAfter call)

/-! ## Evaluating the loop of `parameterBuilder` -/

theorem toString_int_natCast (i : Nat) : toString (i : Int) = toString i := rfl

theorem sprintf_entry (key : String) (hk : ∀ c ∈ key.data, c ≠ '%') (i : Nat) (v : String) :
    Sprintf (key ++ "[%d]=%s") [.int i, .str "string" v] = some (indexedEntry key i v) := by
  have lit : ∀ (l : List Char) (rest : List Char) (a : List GoArg), (∀ c ∈ l, c ≠ '%') →
      doPrintf (l ++ rest) .text a = (doPrintf rest .text a).map (l ++ ·) := by
    intro l
    induction l with
    | nil => intro rest a _; simp
    | cons c cs ih =>
      intro rest a h
      have hc : c ≠ '%' := h c (by simp)
      have hcs : ∀ d ∈ cs, d ≠ '%' := fun d hd => h d (by simp [hd])
      simp [doPrintf, hc, ih rest a hcs, Option.map_map, Function.comp_def]
  simp [Sprintf, String.data_append, lit key.data _ _ hk, doPrintf, printArg, pad,
    extraArgs, indexedEntry, String.ext_iff, toString_int_natCast]

theorem rangeLoop_eq (key : String) (hk : ∀ c ∈ key.data, c ≠ '%') (vs : List String) :
    ∀ (i : Nat) (acc : String),
      rangeLoop (key ++ "[%d]=%s") vs i acc = some (acc ++ entriesFrom key i vs) := by
  induction vs with
  | nil => intro i acc; simp [rangeLoop, entriesFrom]
  | cons v vs ih =>
    intro i acc
    simp [rangeLoop, sprintf_entry key hk, ih, entriesFrom, String.append_assoc]

theorem foldl_append_acc (l : List String) :
    ∀ acc : String, l.foldl (fun a b => a ++ b) acc = acc ++ l.foldl (fun a b => a ++ b) "" := by
  induction l with
  | nil => intro acc; simp
  | cons s l ih =>
    intro acc
    simp only [List.foldl_cons]
    rw [ih (acc ++ s), ih ("" ++ s)]
    simp [String.append_assoc]

theorem join_cons (s : String) (l : List String) :
    String.join (s :: l) = s ++ String.join l := by
  unfold String.join
  simp only [List.foldl_cons]
  rw [foldl_append_acc]
  simp

theorem entriesFrom_eq_join (key : String) (vs : List String) :
    ∀ i : Nat, entriesFrom key i vs
      = String.join ((vs.enumFrom i).map fun p => indexedEntry key p.1 p.2) := by
  induction vs with
  | nil => intro i; simp [entriesFrom, String.join]
  | cons v vs ih => intro i; simp [entriesFrom, List.enumFrom, join_cons, ih]

theorem entriesFrom_zero (key : String) (vs : List String) :
    entriesFrom key 0 vs = indexedEntries key vs := by
  simp [indexedEntries, List.enum, entriesFrom_eq_join]

theorem parameterBuilder_eq (vs : List String) (builder : BuilderType) :
    parameterBuilder vs builder = some (entriesFrom (keyOf builder) 0 vs) := by
  have h : ∀ key : String, (∀ c ∈ key.data, c ≠ '%') →
      rangeLoop (key ++ "[%d]=%s") vs 0 "" = some (entriesFrom key 0 vs) := by
    intro key hk
    rw [rangeLoop_eq key hk]
    simp
  unfold parameterBuilder keyOf
  split_ifs
  · exact h "dags" (by decide)
  · exact h "" (by decide)
  · exact h "events" (by decide)
  · exact h "roles" (by decide)
  · exact h "users" (by decide)
  · exact h "" (by decide)

set_option maxRecDepth 100000 in
set_option maxHeartbeats 4000000 in
theorem formating_eq (r : RedCapClient) (call : Call) :
    formating r call = some (assembled r call) := by
  cases call <;>
    simp [formating, assembled, parameterBuilder_eq, keyOf, Dags, Arms, Events, UserRoles,
      Users, Sprintf, doPrintf, printArg, badVerb, printV, GoArg.typeName, pad, extraArgs,
      String.ext_iff]

/-! ## The parameter encoder -/

/-- C1: for every token, response format and list of DAG names, the body `DeleteDags`
assembles is `token=T&content=dag&action=delete&format=F&` followed by the entries
`dags[0]=v0dags[1]=v1...` with nothing between them; with token `ABC`, format json and
the names alpha, beta it is the body the specification prints. -/
theorem DeleteDags_body (r : RedCapClient) (dags : List String) (url : String) :
    formating r (.DeleteDags dags)
        = some ("token=" ++ r.Token ++ "&content=dag&action=delete&format="
            ++ r.ResponseFormat ++ "&" ++ indexedEntries "dags" dags)
      ∧ formating ⟨"ABC", url, JSON⟩ (.DeleteDags ["alpha", "beta"])
        = some "token=ABC&content=dag&action=delete&format=json&dags[0]=alphadags[1]=beta" := by
  constructor
  · rw [formating_eq, ← entriesFrom_zero]; rfl
  · rw [formating_eq]; rfl

/-- C2: for the builder kinds dags, events and users and every list of values,
`parameterBuilder` returns the entries `kind[i]=v_i`, i = 0..N-1, joined in input order
with no separator, each value copied as it is. -/
theorem parameterBuilder_kind_named (vs : List String) :
    parameterBuilder vs Dags = some (indexedEntries "dags" vs)
      ∧ parameterBuilder vs Events = some (indexedEntries "events" vs)
      ∧ parameterBuilder vs Users = some (indexedEntries "users" vs) := by
  refine ⟨?_, ?_, ?_⟩ <;> rw [parameterBuilder_eq, ← entriesFrom_zero] <;> rfl

/-- C3, the claim fails by a slip of the code: the arms case of the `switch` has the
format `[%d]=%s`, the one of the default case, where every other case writes the name
of the array before the index.  For the kind arms and the values 1, 2 the fragment is
`[0]=1[1]=2`, not `arms[0]=1arms[1]=2`. -/
theorem parameterBuilder_arms_unnamed :
    parameterBuilder ["1", "2"] Arms = some "[0]=1[1]=2"
      ∧ parameterBuilder ["1", "2"] Arms ≠ some (indexedEntries "arms" ["1", "2"]) := by
  rw [parameterBuilder_eq]; decide

/-- The extent of the slip in the arms case: on every list the entries are `[i]=v_i`,
i = 0..N-1, none of them with the name `arms`. -/
theorem parameterBuilder_arms (vs : List String) :
    parameterBuilder vs Arms = some (indexedEntries "" vs) := by
  rw [parameterBuilder_eq, ← entriesFrom_zero]; rfl

/-- C4, the claim fails: for the kind userRoles and the values admin, user the fragment
is `roles[0]=adminroles[1]=user`, not `userRoles[0]=adminuserRoles[1]=user`. -/
theorem parameterBuilder_userRoles_key :
    parameterBuilder ["admin", "user"] UserRoles = some "roles[0]=adminroles[1]=user"
      ∧ parameterBuilder ["admin", "user"] UserRoles
          ≠ some (indexedEntries "userRoles" ["admin", "user"]) := by
  rw [parameterBuilder_eq]; decide

/-- C4, amended: for the kind userRoles `parameterBuilder` returns the entries
`roles[i]=v_i`, i = 0..N-1, each carrying the key `roles` before its index, joined in
input order with no separator. -/
theorem parameterBuilder_userRoles (vs : List String) :
    parameterBuilder vs UserRoles = some (indexedEntries "roles" vs) := by
  rw [parameterBuilder_eq, ← entriesFrom_zero]; rfl

/-! ## The token and the content verb -/

set_option maxRecDepth 100000 in
/-- C5, the claim fails at the three methods it names.  For the client with token `ABC`
and response format json: `ImportFile` and `ImportRecords` format the empty template,
so the body is only the diagnostic `fmt.Sprintf` writes for two unused operands and
holds neither `token=` nor `content=`; `ImportProject` keeps the literal
`$API_SUPER_TOKEN` after `token=` and writes the token after `format=`, so `token=ABC`
occurs nowhere in its body. -/
theorem import_bodies_lack_token :
    formating sampleClient .ImportFile
        = some "%!(EXTRA string=ABC, redcap.ResponseFormat=json)"
      ∧ formating sampleClient .ImportRecords
        = some "%!(EXTRA string=ABC, redcap.ResponseFormat=json)"
      ∧ ¬ "token=".data <:+: "%!(EXTRA string=ABC, redcap.ResponseFormat=json)".data
      ∧ ¬ "content=".data <:+: "%!(EXTRA string=ABC, redcap.ResponseFormat=json)".data
      ∧ formating sampleClient .ImportProject
        = some "token=$API_SUPER_TOKEN&content=project&format=ABC&data=[\x7b\"project_title\":\"New%!P(redcap.ResponseFormat=                json)roject%!v(MISSING)ia%!A(MISSING)PI\",\"purpose\":0,\"purpose_other\":\"\",\"project_note\":\"Some%!n(MISSING)otes%!a(MISSING)bout%!t(MISSING)he%!p(MISSING)roject\"\x7d]"
      ∧ ¬ "token=ABC".data <:+: "token=$API_SUPER_TOKEN&content=project&format=ABC&data=[\x7b\"project_title\":\"New%!P(redcap.ResponseFormat=                json)roject%!v(MISSING)ia%!A(MISSING)PI\",\"purpose\":0,\"purpose_other\":\"\",\"project_note\":\"Some%!n(MISSING)otes%!a(MISSING)bout%!t(MISSING)he%!p(MISSING)roject\"\x7d]".data := by
  refine ⟨by rw [formating_eq]; rfl, by rw [formating_eq]; rfl, by decide, by decide,
    by rw [formating_eq]; rfl, by decide⟩

/-! ## The value of `format=` -/

theorem read_append (q : Seen) (a b : List Char) :
    q.read (a ++ b) = (q.read a).read b := by
  simp [Seen.read, List.foldl_append]

theorem read_cons (q : Seen) (c : Char) (s : List Char) :
    q.read (c :: s) = (q.step c).read s := rfl

theorem read_wrong (s : List Char) : Seen.wrong.read s = .wrong := by
  induction s with
  | nil => rfl
  | cons c s ih => rw [read_cons]; exact ih

theorem read_formatKey (q : Seen) :
    q.read formatKey = .value 0 ∨ q.read formatKey = .wrong := by
  revert q
  decide

theorem step_value_ne (j : Fin 4) (c : Char) (h : c ≠ jsonText.getD j ' ') :
    (Seen.value j).step c = .wrong := by
  simp only [Seen.step, if_neg h]

theorem read_value_aux (j : Fin 4) (ch : Char) (next : Seen) (tail : List Char)
    (hch : jsonText.getD j ' ' = ch) (hnext : (Seen.value j).step ch = next)
    (ih : ∀ t, (next.read t).settled = true → tail <+: t) (suf : List Char)
    (h : ((Seen.value j).read suf).settled = true) : ch :: tail <+: suf := by
  cases suf with
  | nil => simp [Seen.read, Seen.settled] at h
  | cons c t =>
    by_cases hc : c = ch
    · subst hc
      rw [read_cons, hnext] at h
      obtain ⟨r, hr⟩ := ih t h
      exact ⟨r, by simp [← hr]⟩
    · rw [read_cons, step_value_ne j c (by rw [hch]; exact hc), read_wrong] at h
      simp [Seen.settled] at h

theorem read_value_settled (suf : List Char)
    (h : ((Seen.value 0).read suf).settled = true) : jsonText <+: suf := by
  have h3 : ∀ t, (((Seen.value 3).read t).settled = true → ['n'] <+: t) :=
    read_value_aux 3 'n' (.key 0) [] rfl rfl (fun t _ => List.nil_prefix)
  have h2 : ∀ t, (((Seen.value 2).read t).settled = true → ['o', 'n'] <+: t) :=
    read_value_aux 2 'o' (.value 3) _ rfl rfl h3
  have h1 : ∀ t, (((Seen.value 1).read t).settled = true → ['s', 'o', 'n'] <+: t) :=
    read_value_aux 1 's' (.value 2) _ rfl rfl h2
  exact read_value_aux 0 'j' (.value 1) _ rfl rfl h1 suf h

/-- Soundness of the reader: a text it reads through to a settled state has every
`format=` followed by `json`. -/
theorem formatIsJson_of_read (q : Seen) (s : List Char)
    (h : (q.read s).settled = true) : FormatIsJson s := by
  intro pre suf hs
  subst hs
  rw [read_append, read_append] at h
  rcases read_formatKey (q.read pre) with h1 | h1
  · rw [h1] at h
    exact read_value_settled suf h
  · rw [h1, read_wrong] at h
    simp [Seen.settled] at h

theorem take_succ_formatKey (k : Fin 7) (h : k ≠ 6) :
    formatKey.take ((k + 1 : Fin 7) : Nat) = formatKey.take k ++ [formatKey.getD k ' '] := by
  revert k
  decide

theorem step_key (k : Fin 7) (a : Char) (l : List Char)
    (hsuf : formatKey.take k <:+ l) (hno : ¬ formatKey <:+: l ++ [a]) :
    ∃ k2 : Fin 7, (Seen.key k).step a = .key k2 ∧ formatKey.take k2 <:+ l ++ [a] := by
  obtain ⟨t, ht⟩ := hsuf
  by_cases h : a = formatKey.getD k ' '
  · by_cases h6 : k = 6
    · exfalso
      apply hno
      subst h6
      refine ⟨t, [], ?_⟩
      have e : formatKey = formatKey.take ((6 : Fin 7) : Nat) ++ [a] := by rw [h]; rfl
      rw [← ht]
      conv_lhs => rw [e]
      simp
    · refine ⟨k + 1, by simp only [Seen.step, if_pos h, if_neg h6], t, ?_⟩
      rw [take_succ_formatKey k h6, ← ht, h]
      simp
  · by_cases hf : a = 'f'
    · refine ⟨1, by simp only [Seen.step, if_neg h, if_pos hf], l, ?_⟩
      rw [hf]
      rfl
    · exact ⟨0, by simp only [Seen.step, if_neg h, if_neg hf], l ++ [a], by simp [formatKey]⟩

/-- A text without `format=`, read from the start, leaves the reader settled. -/
theorem read_free (x : List Char) (hx : ¬ formatKey <:+: x) :
    ∃ k : Fin 7, (Seen.key 0).read x = .key k ∧ formatKey.take k <:+ x := by
  induction x using List.reverseRecOn with
  | nil => exact ⟨0, rfl, by simp [formatKey]⟩
  | append_singleton l a ih =>
    have hl : ¬ formatKey <:+: l := fun h => hx (h.trans (List.prefix_append l [a]).isInfix)
    obtain ⟨k, hk, hsuf⟩ := ih hl
    obtain ⟨k2, hstep, hsuf2⟩ := step_key k a l hsuf hx
    refine ⟨k2, ?_, hsuf2⟩
    rw [read_append, hk, read_cons, hstep]
    rfl

theorem read_nil (q : Seen) : q.read [] = q := rfl

theorem settled_iff (q : Seen) : q.settled = true ↔ ∃ k, q = .key k := by
  cases q <;> simp [Seen.settled]

/-- Soundness of the skeleton check. -/
theorem accepts_sound : ∀ (ps : List Piece) (st : Known) (xs : List String) (q : Seen),
    accepts st ps = true → (∀ x ∈ xs, Calm x) →
    (match st with
      | .exactly q0 => q = q0
      | .settled => q.settled = true) →
    (q.read (fill ps xs).data).settled = true := by
  intro ps
  induction ps with
  | nil =>
    intro st xs q hacc _ hq
    cases st with
    | exactly q0 => simp only at hq; subst hq; simpa [fill, read_nil, accepts] using hacc
    | settled => simpa [fill, read_nil] using hq
  | cons p ps ih =>
    intro st xs q hacc hxs hq
    cases p with
    | lit s =>
      simp only [fill, String.data_append, read_append]
      cases st with
      | exactly q0 =>
        simp only at hq
        subst hq
        exact ih (.exactly (q.read s.data)) xs _ (by simpa [accepts] using hacc) hxs rfl
      | settled =>
        simp only at hq
        obtain ⟨k, rfl⟩ := (settled_iff q).1 hq
        simp only [accepts, Bool.and_eq_true, decide_eq_true_eq] at hacc
        exact ih (.exactly ((Seen.key 0).read s.data)) xs _ hacc.2 hxs (hacc.1 k)
    | hole =>
      cases st with
      | settled => simp [accepts] at hacc
      | exactly q0 =>
        simp only at hq
        subst hq
        simp only [accepts, Bool.and_eq_true, decide_eq_true_eq] at hacc
        obtain ⟨hq0, hrest⟩ := hacc
        subst hq0
        cases xs with
        | nil => exact ih .settled [] _ hrest hxs rfl
        | cons x xs =>
          simp only [fill, String.data_append, read_append]
          exact ih .settled xs _ hrest (fun y hy => hxs y (by simp [hy]))
            (hxs x (by simp))

theorem calm_of_free (x : String) (hx : ¬ formatKey <:+: x.data) : Calm x := by
  obtain ⟨k, hk, _⟩ := read_free x.data hx
  simp [Calm, hk, Seen.settled]

theorem toDigitsCore_forall (p : Char → Prop) (hp : ∀ d, d < 10 → p (Nat.digitChar d)) :
    ∀ (fuel n : Nat) (ds : List Char), (∀ c ∈ ds, p c) →
      ∀ c ∈ Nat.toDigitsCore 10 fuel n ds, p c := by
  intro fuel
  induction fuel with
  | zero => intro n ds hds; simpa [Nat.toDigitsCore] using hds
  | succ fuel ih =>
    intro n ds hds
    have hd : p (Nat.digitChar (n % 10)) := hp _ (Nat.mod_lt _ (by decide))
    have hcons : ∀ c ∈ Nat.digitChar (n % 10) :: ds, p c := by
      intro c hc
      rcases List.mem_cons.1 hc with h | h
      · rw [h]; exact hd
      · exact hds c h
    simp only [Nat.toDigitsCore]
    split
    · exact hcons
    · exact ih _ _ hcons

theorem decimal_forall (p : Char → Prop) (hp : ∀ d, d < 10 → p (Nat.digitChar d)) (i : Nat) :
    ∀ c ∈ (toString i).data, p c :=
  toDigitsCore_forall p hp _ _ [] (by simp)

theorem read_breaking (s : List Char)
    (hs : ∀ c ∈ s, ∀ k : Fin 7, (Seen.key k).step c = .key 0) :
    (Seen.key 0).read s = .key 0 := by
  induction s with
  | nil => rfl
  | cons c s ih =>
    rw [read_cons, hs c (by simp) 0]
    exact ih (fun d hd => hs d (by simp [hd]))

theorem read_decimal (i : Nat) : (Seen.key 0).read (toString i).data = .key 0 := by
  apply read_breaking
  apply decimal_forall
  decide

/-- The fragment built from values without `format=` leaves any settled reader settled. -/
theorem read_entries (key : String)
    (hkey : ∀ k : Fin 7, (Seen.key k).read (key.data ++ ['[']) = .key 0)
    (vs : List String) (hvs : ∀ v ∈ vs, ¬ formatKey <:+: v.data) :
    ∀ (i : Nat) (k : Fin 7), ∃ k2, (Seen.key k).read (entriesFrom key i vs).data = .key k2 := by
  induction vs with
  | nil => intro i k; exact ⟨k, rfl⟩
  | cons v vs ih =>
    intro i k
    obtain ⟨k1, hk1, _⟩ := read_free v.data (hvs v (by simp))
    obtain ⟨k2, hk2⟩ := ih (fun w hw => hvs w (by simp [hw])) (i + 1) k1
    refine ⟨k2, ?_⟩
    have e : (entriesFrom key i (v :: vs)).data
        = (key.data ++ ['[']) ++ ((toString i).data ++ ([']', '='] ++ (v.data
            ++ (entriesFrom key (i + 1) vs).data))) := by
      simp [entriesFrom, indexedEntry, String.data_append]
    rw [e, read_append, hkey k, read_append, read_decimal, read_append]
    have h2 : (Seen.key 0).read [']', '='] = .key 0 := by decide
    rw [h2, read_append, hk1, hk2]

theorem calm_entries (key : String)
    (hkey : ∀ k : Fin 7, (Seen.key k).read (key.data ++ ['[']) = .key 0)
    (vs : List String) (hvs : ∀ v ∈ vs, ¬ formatKey <:+: v.data) :
    Calm (entriesFrom key 0 vs) := by
  obtain ⟨k2, hk2⟩ := read_entries key hkey vs hvs 0 0
  simp [Calm, hk2, Seen.settled]

set_option maxRecDepth 100000 in
set_option maxHeartbeats 4000000 in
theorem assembled_eq_fill (r : RedCapClient) (call : Call) (hjson : r.ResponseFormat = JSON) :
    assembled r call = fill (skeleton call) (holes r call) := by
  cases call <;>
    simp [assembled, skeleton, holes, fill, hjson, JSON, pad, String.ext_iff]

set_option maxRecDepth 100000 in
theorem accepts_skeleton (call : Call) (hcall : call ≠ .ImportProject) :
    accepts (.exactly (.key 0)) (skeleton call) = true := by
  cases call <;> first
    | exact absurd rfl hcall
    | (simp only [skeleton]; decide)

theorem holes_calm (r : RedCapClient) (call : Call)
    (hfree : ∀ x ∈ r.Token :: call.args, ¬ formatKey <:+: x.data) :
    ∀ x ∈ holes r call, Calm x := by
  have htok : Calm r.Token := calm_of_free _ (hfree _ (by simp))
  have harg : ∀ x ∈ call.args, Calm x := fun x hx => calm_of_free _ (hfree _ (by simp [hx]))
  have hlist : ∀ key : String,
      (∀ k : Fin 7, (Seen.key k).read (key.data ++ ['[']) = .key 0) →
      Calm (entriesFrom key 0 call.args) := fun key hkey =>
    calm_entries key hkey _ (fun v hv => hfree v (by simp [hv]))
  cases call <;> intro x hx <;> simp only [holes, List.mem_cons, List.mem_singleton,
    List.mem_nil_iff, or_false] at hx
  case DeleteArms arms =>
    rcases hx with rfl | rfl
    · exact htok
    · exact hlist "" (by decide)
  case DeleteDags dags =>
    rcases hx with rfl | rfl
    · exact htok
    · exact hlist "dags" (by decide)
  case DeleteEvents events =>
    rcases hx with rfl | rfl
    · exact htok
    · exact hlist "events" (by decide)
  case DeleteUserRoles roles =>
    rcases hx with rfl | rfl
    · exact htok
    · exact hlist "roles" (by decide)
  case DeleteUsers users =>
    rcases hx with rfl | rfl
    · exact htok
    · exact hlist "users" (by decide)
  all_goals
    first
      | (subst hx; exact htok)
      | (rcases hx with rfl | hx
         · exact htok
         · exact harg x (by simp [Call.args]; tauto))

/-- C6, the claim fails: with response format json, `ExportReports` called with the
report id `1&format=xml` sends a body in which `format=` is also followed by `xml`. -/
theorem format_value_injected :
    formating sampleClient (.ExportReports "1&format=xml")
        = some "token=ABC&content=report&format=json&report_id=1&format=xml"
      ∧ ¬ FormatIsJson "token=ABC&content=report&format=json&report_id=1&format=xml".data := by
  refine ⟨by rw [formating_eq]; rfl, ?_⟩
  intro h
  have := h "token=ABC&content=report&format=json&report_id=1&".data "xml".data (by decide)
  revert this
  decide

/-- C6, amended: for a client whose response format is json, for every method other than
`ImportProject`, and for a token and arguments that do not contain the text `format=`,
every occurrence of `format=` in the assembled body is immediately followed by `json`. -/
theorem format_value_is_json (r : RedCapClient) (call : Call)
    (hjson : r.ResponseFormat = JSON) (hcall : call ≠ .ImportProject)
    (hfree : ∀ x ∈ r.Token :: call.args, ¬ formatKey <:+: x.data) :
    ∃ body, formating r call = some body ∧ FormatIsJson body.data := by
  refine ⟨assembled r call, formating_eq r call, ?_⟩
  rw [assembled_eq_fill r call hjson]
  exact formatIsJson_of_read (.key 0) _
    (accepts_sound (skeleton call) (.exactly (.key 0)) (holes r call) (.key 0)
      (accepts_skeleton call hcall) (holes_calm r call hfree) rfl)

/-- The amended C6 at `DeleteRecords` on the sample client. -/
theorem format_value_is_json_witness :
    ∃ body, formating sampleClient (.DeleteRecords "1" "example_field" "example_event")
        = some body ∧ FormatIsJson body.data :=
  format_value_is_json sampleClient (.DeleteRecords "1" "example_field" "example_event")
    rfl (by decide) (by decide)

/-! ## Transport -/

theorem invoke_eq (net : Net) (r : RedCapClient) (call : Call) :
    invoke net r call = some (post net r call (assembled r call)) := by
  simp [invoke, formating_eq]

/-- C7, the claim fails: against an endpoint that cannot be reached `ExportArms` does
not return an error to its caller; `log.Fatal` logs the failure and ends the process. -/
theorem unreachable_endpoint_is_fatal :
    (invoke unreachableNet sampleClient .ExportArms).map Run.outcome
        = some (.fatal "dial tcp 192.0.2.1:443: connect: connection refused")
      ∧ ¬ ∃ err, (invoke unreachableNet sampleClient .ExportArms).map Run.outcome
          = some (.returned [] (some err)) := by
  rw [invoke_eq]
  simp [post, unreachableNet, logLabel]

/-- C7, amended: when building the request, the POST or the read of the body fails with
an error, the call ends in `log.Fatal` with that error as the logged message (after the
label of the branch, empty outside `DeleteArms`) and the process exits; no call ever
returns a non-nil error to its caller. -/
theorem failure_is_fatal (net : Net) (r : RedCapClient) (call : Call) (e : String)
    (hfail : net.newRequestErr "POST" r.URL = some e
      ∨ (net.newRequestErr "POST" r.URL = none
          ∧ ∃ s, formating r call = some s
            ∧ (net.Do (request r s) = .error e
              ∨ ∃ resp, net.Do (request r s) = .ok resp ∧ resp.Body = .error e))) :
    (∃ stage, (invoke net r call).map Run.outcome
        = some (.fatal (logLabel call stage ++ e)))
      ∧ ∀ bodyText err, (invoke net r call).map Run.outcome
          ≠ some (.returned bodyText (some err)) := by
  rw [invoke_eq]
  rcases hfail with h | ⟨h, s, hs, h2 | ⟨resp, h2, h3⟩⟩
  · exact ⟨⟨.create, by simp [post, h]⟩, by simp [post, h]⟩
  · rw [formating_eq] at hs
    cases hs
    exact ⟨⟨.send, by simp [post, h, h2]⟩, by simp [post, h, h2]⟩
  · rw [formating_eq] at hs
    cases hs
    exact ⟨⟨.read, by simp [post, h, h2, h3]⟩, by simp [post, h, h2, h3]⟩

theorem failure_is_fatal_witness :
    (∃ stage, (invoke unreachableNet sampleClient .ExportDags).map Run.outcome
        = some (.fatal (logLabel .ExportDags stage
            ++ "dial tcp 192.0.2.1:443: connect: connection refused")))
      ∧ ∀ bodyText err, (invoke unreachableNet sampleClient .ExportDags).map Run.outcome
          ≠ some (.returned bodyText (some err)) :=
  failure_is_fatal unreachableNet sampleClient .ExportDags _
    (Or.inr ⟨rfl, _, formating_eq _ _, Or.inl rfl⟩)

/-- C8: whenever the request is built, `client.Do` delivers a response and its body is
read, the call returns exactly the bytes of that body with a nil error, whatever the
status code and whatever the bytes are. -/
theorem returns_body_unchanged (net : Net) (r : RedCapClient) (call : Call)
    (resp : Response) (bodyText : Bytes)
    (hnew : net.newRequestErr "POST" r.URL = none)
    (hdo : ∃ s, formating r call = some s ∧ net.Do (request r s) = .ok resp)
    (hread : resp.Body = .ok bodyText) :
    (invoke net r call).map Run.outcome = some (.returned bodyText none) := by
  obtain ⟨s, hs, hdo⟩ := hdo
  rw [formating_eq] at hs
  cases hs
  rw [invoke_eq]
  simp [post, hnew, hdo, hread]

theorem returns_body_unchanged_witness :
    (invoke (answeringNet 403 [123, 34, 101, 34, 58, 49, 125]) sampleClient
        (.ExportFieldNames "some_field")).map Run.outcome
      = some (.returned [123, 34, 101, 34, 58, 49, 125] none) :=
  returns_body_unchanged (answeringNet 403 [123, 34, 101, 34, 58, 49, 125]) sampleClient
    (.ExportFieldNames "some_field") ⟨403, .ok [123, 34, 101, 34, 58, 49, 125]⟩ _ rfl
    ⟨_, formating_eq _ _, rfl⟩ rfl

/-- C9: every call hands `client.Do` at most one request, none only when
`http.NewRequest` refuses the URL; the request is a POST to the configured URL, its body
is the assembled `formating` string and its headers are
`Content-Type: application/x-www-form-urlencoded` and `Accept: application/json`, the
same for every configured response format. -/
theorem one_post_per_call (net : Net) (r : RedCapClient) (call : Call) :
    ∃ body, formating r call = some body
      ∧ (invoke net r call).map Run.sent
        = some (if net.newRequestErr "POST" r.URL = none then
            [⟨"POST", r.URL, body,
              [("Content-Type", "application/x-www-form-urlencoded"),
                ("Accept", "application/json")]⟩]
          else []) := by
  refine ⟨assembled r call, formating_eq r call, ?_⟩
  rw [invoke_eq]
  have hreq : request r (assembled r call)
      = ⟨"POST", r.URL, assembled r call,
          [("Content-Type", "application/x-www-form-urlencoded"),
            ("Accept", "application/json")]⟩ := by
    simp [request, Request.setHeader]
  cases hn : net.newRequestErr "POST" r.URL with
  | some e => simp [post, hn]
  | none =>
    cases hd : net.Do (request r (assembled r call)) with
    | error e => simp [post, hn, hd, ← hreq]
    | ok resp =>
      cases hb : resp.Body with
      | error e => simp [post, hn, hd, hb, ← hreq]
      | ok b => simp [post, hn, hd, hb, ← hreq]

/-- C10, the claim fails: `SwitchDag` gives its caller the same result for a response
with status 200 and for one with status 500 that carry the same body. -/
theorem status_code_not_returned :
    (200 : Int) ≠ 500
      ∧ invoke (answeringNet 200 [79, 75]) sampleClient (.SwitchDag "somedag")
        = invoke (answeringNet 500 [79, 75]) sampleClient (.SwitchDag "somedag") := by
  refine ⟨by decide, ?_⟩
  rw [invoke_eq, invoke_eq]
  simp [post, answeringNet]

/-- C10, amended: the result of a call is the body alone: replacing the status code of
every response by any other leaves what the call returns, and the whole run, unchanged. -/
theorem status_code_ignored (net : Net) (code : Request → Int → Int) (r : RedCapClient)
    (call : Call) :
    invoke ⟨net.newRequestErr,
        fun q => (net.Do q).map fun resp => ⟨code q resp.StatusCode, resp.Body⟩⟩ r call
      = invoke net r call := by
  rw [invoke_eq, invoke_eq]
  simp only [post]
  cases hn : net.newRequestErr "POST" r.URL with
  | some e => simp
  | none =>
    cases hd : net.Do (request r (assembled r call)) with
    | error e => simp [Except.map]
    | ok resp =>
      cases hb : resp.Body with
      | error e => simp [Except.map, hb]
      | ok b => simp [Except.map, hb]

/-! ## The bodies of single methods -/

/-- C11: for every token and response format, each of the ten export methods without
arguments assembles exactly `token=T&content=<verb>&format=F`, the verb being arm, dag,
formEventMapping, pdf, instrument, metadata, project, userDagMapping, userRole and user;
with format json `ExportArms` gives `token=T&content=arm&format=json`. -/
theorem parameterless_export_bodies (r : RedCapClient) (T url : String) :
    formating r .ExportArms
        = some ("token=" ++ r.Token ++ "&content=arm&format=" ++ r.ResponseFormat)
      ∧ formating r .ExportDags
        = some ("token=" ++ r.Token ++ "&content=dag&format=" ++ r.ResponseFormat)
      ∧ formating r .ExportInstrumentEventMaps
        = some ("token=" ++ r.Token ++ "&content=formEventMapping&format="
            ++ r.ResponseFormat)
      ∧ formating r .ExportInstrumentPDF
        = some ("token=" ++ r.Token ++ "&content=pdf&format=" ++ r.ResponseFormat)
      ∧ formating r .ExportInstruments
        = some ("token=" ++ r.Token ++ "&content=instrument&format=" ++ r.ResponseFormat)
      ∧ formating r .ExportMetadata
        = some ("token=" ++ r.Token ++ "&content=metadata&format=" ++ r.ResponseFormat)
      ∧ formating r .ExportProject
        = some ("token=" ++ r.Token ++ "&content=project&format=" ++ r.ResponseFormat)
      ∧ formating r .ExportDagMaps
        = some ("token=" ++ r.Token ++ "&content=userDagMapping&format="
            ++ r.ResponseFormat)
      ∧ formating r .ExportUserRoles
        = some ("token=" ++ r.Token ++ "&content=userRole&format=" ++ r.ResponseFormat)
      ∧ formating r .ExportUsers
        = some ("token=" ++ r.Token ++ "&content=user&format=" ++ r.ResponseFormat)
      ∧ formating ⟨T, url, JSON⟩ .ExportArms
        = some ("token=" ++ T ++ "&content=arm&format=json") := by
  refine ⟨?_, ?_, ?_, ?_, ?_, ?_, ?_, ?_, ?_, ?_, ?_⟩ <;> rw [formating_eq] <;>
    first | rfl | simp [assembled, JSON, String.ext_iff]

/-- C12: for every token, response format and DAG name, `SwitchDag` assembles exactly
`token=T&content=dag&action=switch&format=F&dag=d`; with format json and the name
somedag it is `token=T&content=dag&action=switch&format=json&dag=somedag`. -/
theorem SwitchDag_body (r : RedCapClient) (dag T url : String) :
    formating r (.SwitchDag dag)
        = some ("token=" ++ r.Token ++ "&content=dag&action=switch&format="
            ++ r.ResponseFormat ++ "&dag=" ++ dag)
      ∧ formating ⟨T, url, JSON⟩ (.SwitchDag "somedag")
        = some ("token=" ++ T ++ "&content=dag&action=switch&format=json&dag=somedag") := by
  constructor
  · rw [formating_eq]; rfl
  · rw [formating_eq]; simp [assembled, JSON, String.ext_iff]

/-- C14: for `DeleteEvents`, `DeleteUserRoles` and `DeleteUsers`, every client and every
list of values, `parameterBuilder` returns a fragment for the kind events, userRoles,
users, and the body is `token=T&content=<verb>&action=delete&format=F&` followed by that
fragment and nothing else, the verb being event, userRole, user. -/
theorem delete_bodies_fold_parameters (r : RedCapClient) (vs : List String) :
    (∃ params, parameterBuilder vs Events = some params
        ∧ formating r (.DeleteEvents vs)
          = some ("token=" ++ r.Token ++ "&content=event&action=delete&format="
              ++ r.ResponseFormat ++ "&" ++ params))
      ∧ (∃ params, parameterBuilder vs UserRoles = some params
        ∧ formating r (.DeleteUserRoles vs)
          = some ("token=" ++ r.Token ++ "&content=userRole&action=delete&format="
              ++ r.ResponseFormat ++ "&" ++ params))
      ∧ (∃ params, parameterBuilder vs Users = some params
        ∧ formating r (.DeleteUsers vs)
          = some ("token=" ++ r.Token ++ "&content=user&action=delete&format="
              ++ r.ResponseFormat ++ "&" ++ params)) := by
  refine ⟨⟨_, parameterBuilder_eq vs Events, ?_⟩, ⟨_, parameterBuilder_eq vs UserRoles, ?_⟩,
    ⟨_, parameterBuilder_eq vs Users, ?_⟩⟩ <;> rw [formating_eq] <;> rfl

/-- C15, the claim fails by a slip of the code: the template of `DeleteArms` ends in
`&arms=%s` and the arms case of `parameterBuilder` leaves the name out of the entries,
so that no entry `arms[i]=v` is sent.  For the arms 1, 2, token `ABC` and format json the
body ends in `&arms=[0]=1[1]=2`, not in `&arms[0]=1arms[1]=2`. -/
theorem DeleteArms_body_unnamed_entries :
    formating sampleClient (.DeleteArms ["1", "2"])
        = some "token=ABC&content=arm&action=delete&format=json&arms=[0]=1[1]=2"
      ∧ formating sampleClient (.DeleteArms ["1", "2"])
        ≠ some "token=ABC&content=arm&action=delete&format=json&arms[0]=1arms[1]=2" := by
  rw [formating_eq]; decide

/-- The extent of the slip in `DeleteArms`: on every list of arms the body is
`token=T&content=arm&action=delete&format=F&arms=` followed by the entries `[i]=v_i`
without a name. -/
theorem DeleteArms_body (r : RedCapClient) (arms : List String) :
    formating r (.DeleteArms arms)
      = some ("token=" ++ r.Token ++ "&content=arm&action=delete&format="
          ++ r.ResponseFormat ++ "&arms=" ++ indexedEntries "" arms) := by
  rw [formating_eq, ← entriesFrom_zero]; rfl

/-- C16: for every client and strings record, field, event, `DeleteFile` assembles
exactly `token=T&content=file&action=delete&record=<record>&field=<field>&event=<event>`
and `ExportFile` the same with `action=export`; the templates hold no format parameter,
and the bodies are the same for every value of the response format. -/
theorem file_bodies_without_format (r : RedCapClient) (record field event : String) :
    formating r (.DeleteFile record field event)
        = some ("token=" ++ r.Token ++ "&content=file&action=delete&record=" ++ record
            ++ "&field=" ++ field ++ "&event=" ++ event)
      ∧ formating r (.ExportFile record field event)
        = some ("token=" ++ r.Token ++ "&content=file&action=export&record=" ++ record
            ++ "&field=" ++ field ++ "&event=" ++ event)
      ∧ (∀ F : ResponseFormat,
          formating ⟨r.Token, r.URL, F⟩ (.DeleteFile record field event)
              = formating r (.DeleteFile record field event)
            ∧ formating ⟨r.Token, r.URL, F⟩ (.ExportFile record field event)
              = formating r (.ExportFile record field event)) := by
  refine ⟨by rw [formating_eq]; rfl, by rw [formating_eq]; rfl, fun F => ⟨?_, ?_⟩⟩ <;>
    rw [formating_eq, formating_eq] <;> rfl

/-! ## The order of the fields -/

set_option maxRecDepth 100000 in
set_option maxHeartbeats 4000000 in
theorem assembled_wireHead (r : RedCapClient) (call : Call) (hfile : call ≠ .ImportFile)
    (hrecords : call ≠ .ImportRecords) (hproject : call ≠ .ImportProject) :
    ∃ rest, assembled r call = wireHead r call ++ rest
      ∧ (rest = "" ∨ rest.data.head? = some '&') := by
  cases call
  case DeleteArms arms =>
    refine ⟨"&arms=" ++ entriesFrom "" 0 arms, ?_, ?_⟩
    · simp [assembled, wireHead, leading, contentVerb, actionOf, actionFirst, formatThird,
        String.ext_iff]
    · simp
  case DeleteDags dags =>
    refine ⟨"&" ++ entriesFrom "dags" 0 dags, ?_, ?_⟩
    · simp [assembled, wireHead, leading, contentVerb, actionOf, actionFirst, formatThird,
        String.ext_iff]
    · simp
  case DeleteEvents events =>
    refine ⟨"&" ++ entriesFrom "events" 0 events, ?_, ?_⟩
    · simp [assembled, wireHead, leading, contentVerb, actionOf, actionFirst, formatThird,
        String.ext_iff]
    · simp
  case DeleteFile record field event =>
    refine ⟨"&record=" ++ record ++ "&field=" ++ field ++ "&event=" ++ event, ?_, ?_⟩
    · simp [assembled, wireHead, leading, contentVerb, actionOf, actionFirst, formatThird,
        String.ext_iff]
    · simp
  case DeleteRecords records arms instrument =>
    refine ⟨"&records[0]=" ++ records ++ "&arm=" ++ arms ++ "&instrument=" ++ instrument ++ "&event=visit_1_arm_1&returnformat=" ++ r.ResponseFormat, ?_, ?_⟩
    · simp [assembled, wireHead, leading, contentVerb, actionOf, actionFirst, formatThird,
        String.ext_iff]
    · simp
  case DeleteUserRoles roles =>
    refine ⟨"&" ++ entriesFrom "roles" 0 roles, ?_, ?_⟩
    · simp [assembled, wireHead, leading, contentVerb, actionOf, actionFirst, formatThird,
        String.ext_iff]
    · simp
  case DeleteUsers users =>
    refine ⟨"&" ++ entriesFrom "users" 0 users, ?_, ?_⟩
    · simp [assembled, wireHead, leading, contentVerb, actionOf, actionFirst, formatThird,
        String.ext_iff]
    · simp
  case ExportArms =>
    refine ⟨"", ?_, ?_⟩
    · simp [assembled, wireHead, leading, contentVerb, actionOf, actionFirst, formatThird,
        String.ext_iff]
    · simp
  case ExportDags =>
    refine ⟨"", ?_, ?_⟩
    · simp [assembled, wireHead, leading, contentVerb, actionOf, actionFirst, formatThird,
        String.ext_iff]
    · simp
  case ExportEvents =>
    refine ⟨"&arms=", ?_, ?_⟩
    · simp [assembled, wireHead, leading, contentVerb, actionOf, actionFirst, formatThird,
        String.ext_iff]
    · simp
  case ExportFieldNames feild =>
    refine ⟨"&field=" ++ feild, ?_, ?_⟩
    · simp [assembled, wireHead, leading, contentVerb, actionOf, actionFirst, formatThird,
        String.ext_iff]
    · simp
  case ExportFile record feild event =>
    refine ⟨"&record=" ++ record ++ "&field=" ++ feild ++ "&event=" ++ event, ?_, ?_⟩
    · simp [assembled, wireHead, leading, contentVerb, actionOf, actionFirst, formatThird,
        String.ext_iff]
    · simp
  case ExportInstrumentEventMaps =>
    refine ⟨"", ?_, ?_⟩
    · simp [assembled, wireHead, leading, contentVerb, actionOf, actionFirst, formatThird,
        String.ext_iff]
    · simp
  case ExportInstrumentPDF =>
    refine ⟨"", ?_, ?_⟩
    · simp [assembled, wireHead, leading, contentVerb, actionOf, actionFirst, formatThird,
        String.ext_iff]
    · simp
  case ExportInstruments =>
    refine ⟨"", ?_, ?_⟩
    · simp [assembled, wireHead, leading, contentVerb, actionOf, actionFirst, formatThird,
        String.ext_iff]
    · simp
  case ExportLogging startTime endTime =>
    refine ⟨"&logtype=&user=&record=&beginTime=" ++ startTime ++ "&endTime=" ++ endTime, ?_, ?_⟩
    · simp [assembled, wireHead, leading, contentVerb, actionOf, actionFirst, formatThird,
        String.ext_iff]
    · simp
  case ExportMetadata =>
    refine ⟨"", ?_, ?_⟩
    · simp [assembled, wireHead, leading, contentVerb, actionOf, actionFirst, formatThird,
        String.ext_iff]
    · simp
  case ExportProjectXML =>
    refine ⟨"&returnMetadataOnly=false&exportSurveyFields=false&exportDataAccessGroups=false&returnformat=" ++ r.ResponseFormat, ?_, ?_⟩
    · simp [assembled, wireHead, leading, contentVerb, actionOf, actionFirst, formatThird,
        String.ext_iff]
    · simp
  case ExportProject =>
    refine ⟨"", ?_, ?_⟩
    · simp [assembled, wireHead, leading, contentVerb, actionOf, actionFirst, formatThird,
        String.ext_iff]
    · simp
  case ExportRecords =>
    refine ⟨"&type=flat", ?_, ?_⟩
    · simp [assembled, wireHead, leading, contentVerb, actionOf, actionFirst, formatThird,
        String.ext_iff]
    · simp
  case ExportRedcapVersion =>
    refine ⟨"", ?_, ?_⟩
    · simp [assembled, wireHead, leading, contentVerb, actionOf, actionFirst, formatThird,
        String.ext_iff]
    · simp
  case ExportReports reportID =>
    refine ⟨"&report_id=" ++ reportID, ?_, ?_⟩
    · simp [assembled, wireHead, leading, contentVerb, actionOf, actionFirst, formatThird,
        String.ext_iff]
    · simp
  case ExportSurveyLink recordID instrument event =>
    refine ⟨"&record=" ++ recordID ++ "&instrument=" ++ instrument ++ "&event=" ++ event ++ "&format=" ++ r.ResponseFormat, ?_, ?_⟩
    · simp [assembled, wireHead, leading, contentVerb, actionOf, actionFirst, formatThird,
        String.ext_iff]
    · simp
  case ExportSurveyParticipants instrument event =>
    refine ⟨"&instrument=" ++ instrument ++ "&event=" ++ event ++ "&format=" ++ r.ResponseFormat, ?_, ?_⟩
    · simp [assembled, wireHead, leading, contentVerb, actionOf, actionFirst, formatThird,
        String.ext_iff]
    · simp
  case ExportSurveyQueueLink recordID instrument event =>
    refine ⟨"&record=" ++ recordID ++ "&instrument=" ++ instrument ++ "&event=" ++ event ++ "&format=" ++ r.ResponseFormat, ?_, ?_⟩
    · simp [assembled, wireHead, leading, contentVerb, actionOf, actionFirst, formatThird,
        String.ext_iff]
    · simp
  case ExportSurveyReturnCode recordID instrument event =>
    refine ⟨"&record=" ++ recordID ++ "&instrument=" ++ instrument ++ "&event=" ++ event ++ "&format=" ++ r.ResponseFormat, ?_, ?_⟩
    · simp [assembled, wireHead, leading, contentVerb, actionOf, actionFirst, formatThird,
        String.ext_iff]
    · simp
  case ExportDagMaps =>
    refine ⟨"", ?_, ?_⟩
    · simp [assembled, wireHead, leading, contentVerb, actionOf, actionFirst, formatThird,
        String.ext_iff]
    · simp
  case ExportUserRoles =>
    refine ⟨"", ?_, ?_⟩
    · simp [assembled, wireHead, leading, contentVerb, actionOf, actionFirst, formatThird,
        String.ext_iff]
    · simp
  case ExportUsers =>
    refine ⟨"", ?_, ?_⟩
    · simp [assembled, wireHead, leading, contentVerb, actionOf, actionFirst, formatThird,
        String.ext_iff]
    · simp
  case ImportArms =>
    refine ⟨"&override=0&format=" ++ r.ResponseFormat ++ "&data=[\x7b\\\"arm_num\\\":\\\"1\\\",\\\"name\\\":\\\"Arm%!\\(MISSING)\"\x7d]", ?_, ?_⟩
    · simp [assembled, wireHead, leading, contentVerb, actionOf, actionFirst, formatThird,
        String.ext_iff]
    · simp
  case ImportDags =>
    refine ⟨"&data=[\x7b\"data_access_group_name\":\"Group%!A(MISSING)PI\",\"unique_group_name\":\"\"\x7d]", ?_, ?_⟩
    · simp [assembled, wireHead, leading, contentVerb, actionOf, actionFirst, formatThird,
        String.ext_iff]
    · simp
  case ImportEvents =>
    refine ⟨"&override=0&format=" ++ r.ResponseFormat ++ "&data=[\x7b\\\"event_name\\\":\\\"Event%!\\(MISSING)\",\\\"arm_num\\\":\\\"1\\\",\\\"day_offset\\\":\\\"0\\\",\\\"offset_min\\\":\\\"0\\\",\\\"offset_max\\\":\\\"0\\\",\\\"unique_event_name\\\":\\\"event_1_arm_1\\\"\x7d]", ?_, ?_⟩
    · simp [assembled, wireHead, leading, contentVerb, actionOf, actionFirst, formatThird,
        String.ext_iff]
    · simp
  case ImportFile => exact absurd rfl hfile
  case ImportInstrumentEventMaps =>
    refine ⟨"&data=[\x7b\\\"arm\\\":\x7b\\\"number\\\":\\\"1\\\",\\\"event\\\":[\x7b\\\"unique_event_name\\\":\\\"event_1_arm_1\\\",\\\"form\\\":[\\\"instr_1\\\",\\\"instr_2\\\"]\x7d]\x7d\x7d,\x7b\\\"arm\\\":\x7b\\\"number\\\":\\\"2\\\",\\\"event\\\":[\x7b\\\"unique_event_name\\\":\\\"event_2_arm_1\\\",\\\"form\\\":[\\\"instr_1\\\"]\x7d]\x7d\x7d]", ?_, ?_⟩
    · simp [assembled, wireHead, leading, contentVerb, actionOf, actionFirst, formatThird,
        String.ext_iff]
    · simp
  case ImportProject => exact absurd rfl hproject
  case ImportRecords => exact absurd rfl hrecords
  case ImportUserDagMaps =>
    refine ⟨"&data=[\x7b\"username\":\"testuser\",\"redcap_data_access_group\":\"api_testing_group\"\x7d]", ?_, ?_⟩
    · simp [assembled, wireHead, leading, contentVerb, actionOf, actionFirst, formatThird,
        String.ext_iff]
    · simp
  case ImportUserRoles =>
    refine ⟨"&data=[\x7b\"unique_role_name\":\"U-2119C4Y87T\",\"role_label\":\"Project Manager\",\"data_access_group\":\"1\",\"data_export\":\"0\",\"mobile_app\":\"0\",\"mobile_app_download_data\":\"0\",\"lock_records_all_forms\":\"0\",\"lock_records\":\"0\",\"lock_records_customization\":\"0\",\"record_delete\":\"0\",\"record_rename\":\"0\",\"record_create\":\"1\",\"api_import\":\"1\",\"api_export\":\"1\",\"api_modules\":\"1\",\"data_quality_execute\":\"1\",\"data_quality_create\":\"1\",\"file_repository\":\"1\",\"logging\":\"1\",\"data_comparison_tool\":\"1\",\"data_import_tool\":\"1\",\"calendar\":\"1\",\"stats_and_charts\":\"1\",\"reports\":\"1\",\"user_rights\":\"1\",\"design\":\"1\"\x7d]", ?_, ?_⟩
    · simp [assembled, wireHead, leading, contentVerb, actionOf, actionFirst, formatThird,
        String.ext_iff]
    · simp
  case ImportUsers =>
    refine ⟨"&data=[\x7b\"username\":\"test_user_47\",\"expiration\":\"\",\"data_access_group\":\"1\",\"data_export\":\"0\",\"mobile_app\":\"0\",\"mobile_app_download_data\":\"0\",\"lock_record_multiform\":\"0\",\"lock_record\":\"0\",\"lock_record_customize\":\"0\",\"record_delete\":\"0\",\"record_rename\":\"0\",\"record_create\":\"1\",\"api_import\":\"1\",\"api_export\":\"1\",\"api_modules\":\"1\",\"data_quality_execute\":\"1\",\"data_quality_design\":\"1\",\"file_repository\":\"1\",\"data_logging\":\"1\",\"data_comparison_tool\":\"1\",\"data_import_tool\":\"1\",\"calendar\":\"1\",\"graphical\":\"1\",\"reports\":\"1\",\"user_rights\":\"1\",\"design\":\"1\"\x7d]", ?_, ?_⟩
    · simp [assembled, wireHead, leading, contentVerb, actionOf, actionFirst, formatThird,
        String.ext_iff]
    · simp
  case RenameRecord record_id arm record_id_new =>
    refine ⟨"&record=" ++ record_id ++ "&new_record_name=" ++ record_id_new ++ "&arm=" ++ arm ++ "&returnFormat=" ++ r.ResponseFormat, ?_, ?_⟩
    · simp [assembled, wireHead, leading, contentVerb, actionOf, actionFirst, formatThird,
        String.ext_iff]
    · simp
  case SwitchDag dag =>
    refine ⟨"&dag=" ++ dag, ?_, ?_⟩
    · simp [assembled, wireHead, leading, contentVerb, actionOf, actionFirst, formatThird,
        String.ext_iff]
    · simp

set_option maxRecDepth 100000 in
set_option maxHeartbeats 4000000 in
theorem assembled_format_value (T U : String) (call : Call) (key : String)
    (hkey : formatParameter call = some key) :
    ∃ pre post, (∀ F : ResponseFormat,
        assembled ⟨T, U, F⟩ call = pre ++ "&" ++ key ++ "=" ++ F ++ post)
      ∧ (post = "" ∨ post.data.head? = some '&') := by
  cases call <;> simp only [formatParameter, Option.some.injEq, reduceCtorEq] at hkey <;> subst hkey
  case DeleteArms arms =>
    refine ⟨"token=" ++ T ++ "&content=arm&action=delete", "&arms=" ++ entriesFrom "" 0 arms, fun F => ?_, ?_⟩
    · simp [assembled, String.ext_iff]
    · simp
  case DeleteDags dags =>
    refine ⟨"token=" ++ T ++ "&content=dag&action=delete", "&" ++ entriesFrom "dags" 0 dags, fun F => ?_, ?_⟩
    · simp [assembled, String.ext_iff]
    · simp
  case DeleteEvents events =>
    refine ⟨"token=" ++ T ++ "&content=event&action=delete", "&" ++ entriesFrom "events" 0 events, fun F => ?_, ?_⟩
    · simp [assembled, String.ext_iff]
    · simp
  case DeleteRecords records arms instrument =>
    refine ⟨"token=" ++ T ++ "&action=delete&content=record&records[0]=" ++ records ++ "&arm=" ++ arms ++ "&instrument=" ++ instrument ++ "&event=visit_1_arm_1", "", fun F => ?_, ?_⟩
    · simp [assembled, String.ext_iff]
    · simp
  case DeleteUserRoles roles =>
    refine ⟨"token=" ++ T ++ "&content=userRole&action=delete", "&" ++ entriesFrom "roles" 0 roles, fun F => ?_, ?_⟩
    · simp [assembled, String.ext_iff]
    · simp
  case DeleteUsers users =>
    refine ⟨"token=" ++ T ++ "&content=user&action=delete", "&" ++ entriesFrom "users" 0 users, fun F => ?_, ?_⟩
    · simp [assembled, String.ext_iff]
    · simp
  case ExportArms =>
    refine ⟨"token=" ++ T ++ "&content=arm", "", fun F => ?_, ?_⟩
    · simp [assembled, String.ext_iff]
    · simp
  case ExportDags =>
    refine ⟨"token=" ++ T ++ "&content=dag", "", fun F => ?_, ?_⟩
    · simp [assembled, String.ext_iff]
    · simp
  case ExportEvents =>
    refine ⟨"token=" ++ T ++ "&content=event", "&arms=", fun F => ?_, ?_⟩
    · simp [assembled, String.ext_iff]
    · simp
  case ExportFieldNames feild =>
    refine ⟨"token=" ++ T ++ "&content=exportFieldNames", "&field=" ++ feild, fun F => ?_, ?_⟩
    · simp [assembled, String.ext_iff]
    · simp
  case ExportInstrumentEventMaps =>
    refine ⟨"token=" ++ T ++ "&content=formEventMapping", "", fun F => ?_, ?_⟩
    · simp [assembled, String.ext_iff]
    · simp
  case ExportInstrumentPDF =>
    refine ⟨"token=" ++ T ++ "&content=pdf", "", fun F => ?_, ?_⟩
    · simp [assembled, String.ext_iff]
    · simp
  case ExportInstruments =>
    refine ⟨"token=" ++ T ++ "&content=instrument", "", fun F => ?_, ?_⟩
    · simp [assembled, String.ext_iff]
    · simp
  case ExportLogging startTime endTime =>
    refine ⟨"token=" ++ T ++ "&content=log", "&logtype=&user=&record=&beginTime=" ++ startTime ++ "&endTime=" ++ endTime, fun F => ?_, ?_⟩
    · simp [assembled, String.ext_iff]
    · simp
  case ExportMetadata =>
    refine ⟨"token=" ++ T ++ "&content=metadata", "", fun F => ?_, ?_⟩
    · simp [assembled, String.ext_iff]
    · simp
  case ExportProjectXML =>
    refine ⟨"token=" ++ T ++ "&content=project_xml&returnMetadataOnly=false&exportSurveyFields=false&exportDataAccessGroups=false", "", fun F => ?_, ?_⟩
    · simp [assembled, String.ext_iff]
    · simp
  case ExportProject =>
    refine ⟨"token=" ++ T ++ "&content=project", "", fun F => ?_, ?_⟩
    · simp [assembled, String.ext_iff]
    · simp
  case ExportRecords =>
    refine ⟨"token=" ++ T ++ "&content=record", "&type=flat", fun F => ?_, ?_⟩
    · simp [assembled, String.ext_iff]
    · simp
  case ExportReports reportID =>
    refine ⟨"token=" ++ T ++ "&content=report", "&report_id=" ++ reportID, fun F => ?_, ?_⟩
    · simp [assembled, String.ext_iff]
    · simp
  case ExportSurveyLink recordID instrument event =>
    refine ⟨"token=" ++ T ++ "&content=surveyLink&record=" ++ recordID ++ "&instrument=" ++ instrument ++ "&event=" ++ event, "", fun F => ?_, ?_⟩
    · simp [assembled, String.ext_iff]
    · simp
  case ExportSurveyParticipants instrument event =>
    refine ⟨"token=" ++ T ++ "&content=participantList&instrument=" ++ instrument ++ "&event=" ++ event, "", fun F => ?_, ?_⟩
    · simp [assembled, String.ext_iff]
    · simp
  case ExportSurveyQueueLink recordID instrument event =>
    refine ⟨"token=" ++ T ++ "&content=surveyQueueLink&record=" ++ recordID ++ "&instrument=" ++ instrument ++ "&event=" ++ event, "", fun F => ?_, ?_⟩
    · simp [assembled, String.ext_iff]
    · simp
  case ExportSurveyReturnCode recordID instrument event =>
    refine ⟨"token=" ++ T ++ "&content=surveyReturnCode&record=" ++ recordID ++ "&instrument=" ++ instrument ++ "&event=" ++ event, "", fun F => ?_, ?_⟩
    · simp [assembled, String.ext_iff]
    · simp
  case ExportDagMaps =>
    refine ⟨"token=" ++ T ++ "&content=userDagMapping", "", fun F => ?_, ?_⟩
    · simp [assembled, String.ext_iff]
    · simp
  case ExportUserRoles =>
    refine ⟨"token=" ++ T ++ "&content=userRole", "", fun F => ?_, ?_⟩
    · simp [assembled, String.ext_iff]
    · simp
  case ExportUsers =>
    refine ⟨"token=" ++ T ++ "&content=user", "", fun F => ?_, ?_⟩
    · simp [assembled, String.ext_iff]
    · simp
  case ImportArms =>
    refine ⟨"token=" ++ T ++ "&content=arm&action=import&override=0", "&data=[\x7b\\\"arm_num\\\":\\\"1\\\",\\\"name\\\":\\\"Arm%!\\(MISSING)\"\x7d]", fun F => ?_, ?_⟩
    · simp [assembled, String.ext_iff]
    · simp
  case ImportDags =>
    refine ⟨"token=" ++ T ++ "&content=dag&action=import", "&data=[\x7b\"data_access_group_name\":\"Group%!A(MISSING)PI\",\"unique_group_name\":\"\"\x7d]", fun F => ?_, ?_⟩
    · simp [assembled, String.ext_iff]
    · simp
  case ImportEvents =>
    refine ⟨"token=" ++ T ++ "&content=event&action=import&override=0", "&data=[\x7b\\\"event_name\\\":\\\"Event%!\\(MISSING)\",\\\"arm_num\\\":\\\"1\\\",\\\"day_offset\\\":\\\"0\\\",\\\"offset_min\\\":\\\"0\\\",\\\"offset_max\\\":\\\"0\\\",\\\"unique_event_name\\\":\\\"event_1_arm_1\\\"\x7d]", fun F => ?_, ?_⟩
    · simp [assembled, String.ext_iff]
    · simp
  case ImportInstrumentEventMaps =>
    refine ⟨"token=" ++ T ++ "&content=formEventMapping", "&data=[\x7b\\\"arm\\\":\x7b\\\"number\\\":\\\"1\\\",\\\"event\\\":[\x7b\\\"unique_event_name\\\":\\\"event_1_arm_1\\\",\\\"form\\\":[\\\"instr_1\\\",\\\"instr_2\\\"]\x7d]\x7d\x7d,\x7b\\\"arm\\\":\x7b\\\"number\\\":\\\"2\\\",\\\"event\\\":[\x7b\\\"unique_event_name\\\":\\\"event_2_arm_1\\\",\\\"form\\\":[\\\"instr_1\\\"]\x7d]\x7d\x7d]", fun F => ?_, ?_⟩
    · simp [assembled, String.ext_iff]
    · simp
  case ImportUserDagMaps =>
    refine ⟨"token=" ++ T ++ "&content=userDagMapping&action=import", "&data=[\x7b\"username\":\"testuser\",\"redcap_data_access_group\":\"api_testing_group\"\x7d]", fun F => ?_, ?_⟩
    · simp [assembled, String.ext_iff]
    · simp
  case ImportUserRoles =>
    refine ⟨"token=" ++ T ++ "&content=userRole", "&data=[\x7b\"unique_role_name\":\"U-2119C4Y87T\",\"role_label\":\"Project Manager\",\"data_access_group\":\"1\",\"data_export\":\"0\",\"mobile_app\":\"0\",\"mobile_app_download_data\":\"0\",\"lock_records_all_forms\":\"0\",\"lock_records\":\"0\",\"lock_records_customization\":\"0\",\"record_delete\":\"0\",\"record_rename\":\"0\",\"record_create\":\"1\",\"api_import\":\"1\",\"api_export\":\"1\",\"api_modules\":\"1\",\"data_quality_execute\":\"1\",\"data_quality_create\":\"1\",\"file_repository\":\"1\",\"logging\":\"1\",\"data_comparison_tool\":\"1\",\"data_import_tool\":\"1\",\"calendar\":\"1\",\"stats_and_charts\":\"1\",\"reports\":\"1\",\"user_rights\":\"1\",\"design\":\"1\"\x7d]", fun F => ?_, ?_⟩
    · simp [assembled, String.ext_iff]
    · simp
  case ImportUsers =>
    refine ⟨"token=" ++ T ++ "&content=user", "&data=[\x7b\"username\":\"test_user_47\",\"expiration\":\"\",\"data_access_group\":\"1\",\"data_export\":\"0\",\"mobile_app\":\"0\",\"mobile_app_download_data\":\"0\",\"lock_record_multiform\":\"0\",\"lock_record\":\"0\",\"lock_record_customize\":\"0\",\"record_delete\":\"0\",\"record_rename\":\"0\",\"record_create\":\"1\",\"api_import\":\"1\",\"api_export\":\"1\",\"api_modules\":\"1\",\"data_quality_execute\":\"1\",\"data_quality_design\":\"1\",\"file_repository\":\"1\",\"data_logging\":\"1\",\"data_comparison_tool\":\"1\",\"data_import_tool\":\"1\",\"calendar\":\"1\",\"graphical\":\"1\",\"reports\":\"1\",\"user_rights\":\"1\",\"design\":\"1\"\x7d]", fun F => ?_, ?_⟩
    · simp [assembled, String.ext_iff]
    · simp
  case RenameRecord record_id arm record_id_new =>
    refine ⟨"token=" ++ T ++ "&action=rename&content=record&record=" ++ record_id ++ "&new_record_name=" ++ record_id_new ++ "&arm=" ++ arm, "", fun F => ?_, ?_⟩
    · simp [assembled, String.ext_iff]
    · simp
  case SwitchDag dag =>
    refine ⟨"token=" ++ T ++ "&content=dag&action=switch", "&dag=" ++ dag, fun F => ?_, ?_⟩
    · simp [assembled, String.ext_iff]
    · simp

theorem leading_head (call : Call) (s : String) :
    (leading call ++ s).data.head? = some '&' := by
  cases call <;> simp [leading, contentVerb, actionOf, actionFirst]

theorem post_sent (net : Net) (r : RedCapClient) (call : Call) (body : String) :
    ∀ req ∈ (post net r call body).sent, req = request r body := by
  intro req hreq
  unfold post at hreq
  split at hreq
  · simp at hreq
  · split at hreq
    · simpa using hreq
    · split at hreq <;> simpa using hreq

set_option maxRecDepth 100000 in
set_option maxHeartbeats 4000000 in
theorem assembled_wireFields (r : RedCapClient) (call : Call) (hfile : call ≠ .ImportFile)
    (hrecords : call ≠ .ImportRecords) (hproject : call ≠ .ImportProject) :
    assembled r call = String.intercalate "&" (wireFields r call) := by
  cases call <;> first
    | exact absurd rfl hfile
    | exact absurd rfl hrecords
    | exact absurd rfl hproject
    | simp [assembled, wireFields, leadingFields, fieldsBefore, fieldsAfter, formatParameter,
        actionOf, actionFirst, contentVerb, String.intercalate, String.intercalate.go,
        String.ext_iff]

theorem formatThird_iff (call : Call) :
    formatThird call = true
      ↔ fieldsBefore call = [] ∧ formatParameter call = some "format" := by
  cases call <;> simp [formatThird, fieldsBefore, formatParameter]

/-- C13, the claim fails: the body of `DeleteRecords` names the action before the content
verb and sends the format last, as `returnformat`; the body of `ExportSurveyLink` sends
`format` behind its own parameters. -/
theorem field_order_differs :
    formating sampleClient (.DeleteRecords "1" "example_field" "example_event")
        = some "token=ABC&action=delete&content=record&records[0]=1&arm=example_field&instrument=example_event&event=visit_1_arm_1&returnformat=json"
      ∧ ¬ "token=ABC&content=".data <+: "token=ABC&action=delete&content=record&records[0]=1&arm=example_field&instrument=example_event&event=visit_1_arm_1&returnformat=json".data
      ∧ formating sampleClient (.ExportSurveyLink "1" "survey" "event_1_arm_1")
        = some "token=ABC&content=surveyLink&record=1&instrument=survey&event=event_1_arm_1&format=json"
      ∧ ¬ "token=ABC&content=surveyLink&format=".data <+: "token=ABC&content=surveyLink&record=1&instrument=survey&event=event_1_arm_1&format=json".data := by
  refine ⟨by rw [formating_eq]; rfl, by decide, by rw [formating_eq]; rfl, by decide⟩

/-- C13, amended: for every method other than `ImportFile`, `ImportRecords` and
`ImportProject`, the body is exactly the fields of `wireFields` joined by `&`: first
`token=<token>`; then `content=<verb>` with `action=<action>` behind it when the action
has one (ahead of it in `DeleteRecords` and `RenameRecord`); then the parameters of its
own that the method sends ahead of the format, the format under its parameter name when
the method sends it, and the remaining parameters of its own.  The format stands right
behind the leading fields, under the name `format`, in the methods of `formatThird` and
in no other. -/
theorem field_order (r : RedCapClient) (call : Call) (hfile : call ≠ .ImportFile)
    (hrecords : call ≠ .ImportRecords) (hproject : call ≠ .ImportProject) :
    formating r call = some (String.intercalate "&" (wireFields r call))
      ∧ (formatThird call = true
          ↔ fieldsBefore call = [] ∧ formatParameter call = some "format") := by
  refine ⟨?_, formatThird_iff call⟩
  rw [formating_eq, assembled_wireFields r call hfile hrecords hproject]

/-- The amended C13 at the call of `RenameRecord` the test makes, on the sample client:
the seven fields in the order they are sent, the format last as `returnFormat`. -/
theorem field_order_witness :
    formating sampleClient (.RenameRecord "1" "some_field" "2")
        = some (String.intercalate "&" ["token=ABC", "action=rename", "content=record",
            "record=1", "new_record_name=2", "arm=some_field", "returnFormat=json"])
      ∧ (formatThird (.RenameRecord "1" "some_field" "2") = true
          ↔ fieldsBefore (.RenameRecord "1" "some_field" "2") = []
            ∧ formatParameter (.RenameRecord "1" "some_field" "2") = some "format") :=
  field_order sampleClient (.RenameRecord "1" "some_field" "2") (by decide) (by decide)
    (by decide)

/-! ## What is not checked -/

/-- C17, the claim fails: for a client whose token is the empty string `ExportArms` sends
a request with the body `token=&content=arm&format=json`. -/
theorem empty_token_is_sent :
    invoke (answeringNet 200 []) ⟨"", "https://redcap.example.edu/api/", JSON⟩ .ExportArms
      = some ⟨[request ⟨"", "https://redcap.example.edu/api/", JSON⟩
          "token=&content=arm&format=json"], .returned [] none⟩ := by
  rw [invoke, formating_eq]; rfl

/-- C17, amended: for every method other than `ImportFile`, `ImportRecords` and
`ImportProject`, every network and every client, the call is carried out and the body of
each request it sends begins with `token=` followed by the configured token as it is,
empty or not, and then ends or goes on with `&`. -/
theorem token_sent_verbatim (net : Net) (r : RedCapClient) (call : Call)
    (hfile : call ≠ .ImportFile) (hrecords : call ≠ .ImportRecords)
    (hproject : call ≠ .ImportProject) :
    ∃ run, invoke net r call = some run
      ∧ ∀ req ∈ run.sent, ∃ rest, req.Body = "token=" ++ r.Token ++ rest
          ∧ (rest = "" ∨ rest.data.head? = some '&') := by
  obtain ⟨rest, h, -⟩ := assembled_wireHead r call hfile hrecords hproject
  refine ⟨post net r call (assembled r call), by simp [invoke, formating_eq], ?_⟩
  intro req hreq
  rw [post_sent net r call _ req hreq]
  refine ⟨leading call
    ++ ((if formatThird call then "&format=" ++ r.ResponseFormat else "") ++ rest), ?_,
    Or.inr (leading_head call _)⟩
  show assembled r call = _
  rw [h]
  simp [wireHead, String.append_assoc]

/-- The amended C17 at `ExportArms` for the client with the empty token. -/
theorem token_sent_verbatim_witness :
    ∃ run, invoke (answeringNet 200 []) ⟨"", "https://redcap.example.edu/api/", JSON⟩
        .ExportArms = some run
      ∧ ∀ req ∈ run.sent, ∃ rest, req.Body = "token=" ++ "" ++ rest
          ∧ (rest = "" ∨ rest.data.head? = some '&') :=
  token_sent_verbatim (answeringNet 200 []) ⟨"", "https://redcap.example.edu/api/", JSON⟩
    .ExportArms (by decide) (by decide) (by decide)

/-- C18, the claim fails: a client built with the response format `yaml`, which is none
of json, xml, csv, sends `format=yaml`. -/
theorem unrecognized_format_is_sent :
    formating ⟨"ABC", "https://redcap.example.edu/api/", "yaml"⟩ .ExportArms
        = some "token=ABC&content=arm&format=yaml"
      ∧ ("yaml" : ResponseFormat) ∉ [JSON, XML, CSV] := by
  refine ⟨by rw [formating_eq]; rfl, by decide⟩

/-- C18, amended: for every method that sends the response format as the value of a
parameter (`format`, `returnformat` or `returnFormat`), the body is a text fixed by the
token and the arguments into which the client's `ResponseFormat` is copied as it is
behind `&<parameter>=`, followed by the end of the body or by `&`: the value sent is the
configured one, whatever it is. -/
theorem format_value_is_configured (T U : String) (call : Call) (key : String)
    (hkey : formatParameter call = some key) :
    ∃ pre post, (∀ F : ResponseFormat,
        formating ⟨T, U, F⟩ call = some (pre ++ "&" ++ key ++ "=" ++ F ++ post))
      ∧ (post = "" ∨ post.data.head? = some '&') := by
  obtain ⟨pre, post, h, hpost⟩ := assembled_format_value T U call key hkey
  exact ⟨pre, post, fun F => by rw [formating_eq, h], hpost⟩

/-- The amended C18 at `DeleteRecords`, which sends the format as `returnformat`. -/
theorem format_value_is_configured_witness :
    ∃ pre post, (∀ F : ResponseFormat,
        formating ⟨"ABC", "https://redcap.example.edu/api/", F⟩
            (.DeleteRecords "1" "example_field" "example_event")
          = some (pre ++ "&" ++ "returnformat" ++ "=" ++ F ++ post))
      ∧ (post = "" ∨ post.data.head? = some '&') :=
  format_value_is_configured "ABC" "https://redcap.example.edu/api/"
    (.DeleteRecords "1" "example_field" "example_event") "returnformat" rfl

/-! ## The client across a call -/

/-- C19: every method, on every network, with every argument and from every client, runs
to its end (it returns, or `log.Fatal` ends the process) with the outcome of `invoke` and
leaves the client as it was: token, URL and response format are the ones before the
call. -/
theorem client_unchanged (net : Net) (r : RedCapClient) (call : Call) :
    ∃ run, (method net call).run r = some (run, r) ∧ invoke net r call = some run := by
  refine ⟨post net r call (assembled r call), ?_, by simp [invoke, formating_eq]⟩
  simp [method, formating_eq, StateT.run, bind, StateT.bind, get, getThe, MonadStateOf.get,
    StateT.get, pure, StateT.pure, StateT.lift]

/-! ## The example payloads -/

set_option maxRecDepth 100000 in
/-- C20, the claim fails.  The templates of `ImportArms`, `ImportDags` and `ImportEvents`
hold `%20` unescaped, which `fmt.Sprintf` reads as the start of a verb with a width: with
no operand left it writes `%!A(MISSING)` for `%20A` and `%!\(MISSING)` for `%201\`.  For
token `ABC` and format json each body is the first text below, not the template with the
two placeholders filled in, which is the second. -/
theorem import_payloads_garbled :
    formating sampleClient .ImportDags
        = some "token=ABC&content=dag&action=import&format=json&data=[\x7b\"data_access_group_name\":\"Group%!A(MISSING)PI\",\"unique_group_name\":\"\"\x7d]"
      ∧ formating sampleClient .ImportDags
        ≠ some "token=ABC&content=dag&action=import&format=json&data=[\x7b\"data_access_group_name\":\"Group%20API\",\"unique_group_name\":\"\"\x7d]"
      ∧ formating sampleClient .ImportArms
        = some "token=ABC&content=arm&action=import&override=0&format=json&data=[\x7b\\\"arm_num\\\":\\\"1\\\",\\\"name\\\":\\\"Arm%!\\(MISSING)\"\x7d]"
      ∧ formating sampleClient .ImportArms
        ≠ some "token=ABC&content=arm&action=import&override=0&format=json&data=[\x7b\\\"arm_num\\\":\\\"1\\\",\\\"name\\\":\\\"Arm%201\\\"\x7d]"
      ∧ formating sampleClient .ImportEvents
        = some "token=ABC&content=event&action=import&override=0&format=json&data=[\x7b\\\"event_name\\\":\\\"Event%!\\(MISSING)\",\\\"arm_num\\\":\\\"1\\\",\\\"day_offset\\\":\\\"0\\\",\\\"offset_min\\\":\\\"0\\\",\\\"offset_max\\\":\\\"0\\\",\\\"unique_event_name\\\":\\\"event_1_arm_1\\\"\x7d]"
      ∧ formating sampleClient .ImportEvents
        ≠ some "token=ABC&content=event&action=import&override=0&format=json&data=[\x7b\\\"event_name\\\":\\\"Event%201\\\",\\\"arm_num\\\":\\\"1\\\",\\\"day_offset\\\":\\\"0\\\",\\\"offset_min\\\":\\\"0\\\",\\\"offset_max\\\":\\\"0\\\",\\\"unique_event_name\\\":\\\"event_1_arm_1\\\"\x7d]" := by
  refine ⟨?_, ?_, ?_, ?_, ?_, ?_⟩ <;> rw [formating_eq] <;> decide

/-! ## Reading a fragment back -/

theorem append_cons_cancel (c : Char) :
    ∀ (a b r s : List Char), c ∉ a → c ∉ b → a ++ c :: r = b ++ c :: s → a = b ∧ r = s
  | [], [], r, s, _, _, h => by simpa using h
  | [], y :: b, r, s, _, hb, h => by
    simp only [List.nil_append, List.cons_append, List.cons.injEq] at h
    exact absurd (h.1 ▸ List.mem_cons_self c b) hb
  | x :: a, [], r, s, ha, _, h => by
    simp only [List.nil_append, List.cons_append, List.cons.injEq] at h
    exact absurd (h.1 ▸ List.mem_cons_self c a) ha
  | x :: a, y :: b, r, s, ha, hb, h => by
    simp only [List.cons_append, List.cons.injEq] at h
    obtain ⟨hab, hrs⟩ := append_cons_cancel c a b r s
      (fun hm => ha (List.mem_cons_of_mem _ hm)) (fun hm => hb (List.mem_cons_of_mem _ hm)) h.2
    exact ⟨by rw [h.1, hab], hrs⟩

theorem entriesFrom_cons_data (key : String) (i : Nat) (v : String) (vs : List String) :
    (entriesFrom key i (v :: vs)).data
      = key.data ++ '[' :: ((toString i).data ++ ']' :: '=' :: (v.data
          ++ (entriesFrom key (i + 1) vs).data)) := by
  simp [entriesFrom, indexedEntry]

theorem entriesFrom_injective (key : String) (hkey : '[' ∉ key.data) :
    ∀ (xs ys : List String) (i : Nat), (∀ x ∈ xs, '[' ∉ x.data) → (∀ y ∈ ys, '[' ∉ y.data) →
      entriesFrom key i xs = entriesFrom key i ys → xs = ys
  | [], [], _, _, _, _ => rfl
  | [], y :: ys, i, _, _, h => by
    have := congrArg String.data h
    rw [entriesFrom_cons_data] at this
    simp [entriesFrom] at this
  | x :: xs, [], i, _, _, h => by
    have := congrArg String.data h
    rw [entriesFrom_cons_data] at this
    simp [entriesFrom] at this
  | x :: xs, y :: ys, i, hx, hy, h => by
    have hd := congrArg String.data h
    rw [entriesFrom_cons_data, entriesFrom_cons_data] at hd
    have hd : x.data ++ (entriesFrom key (i + 1) xs).data
        = y.data ++ (entriesFrom key (i + 1) ys).data := by
      simpa using hd
    have hx0 : '[' ∉ x.data := hx x (List.mem_cons_self _ _)
    have hy0 : '[' ∉ y.data := hy y (List.mem_cons_self _ _)
    have hxs : ∀ v ∈ xs, '[' ∉ v.data := fun v hv => hx v (List.mem_cons_of_mem _ hv)
    have hys : ∀ v ∈ ys, '[' ∉ v.data := fun v hv => hy v (List.mem_cons_of_mem _ hv)
    have key_x : '[' ∉ x.data ++ key.data := by simp [hx0, hkey]
    have key_y : '[' ∉ y.data ++ key.data := by simp [hy0, hkey]
    have tail : x = y ∧ entriesFrom key (i + 1) xs = entriesFrom key (i + 1) ys := by
      cases xs with
      | nil =>
        cases ys with
        | nil => exact ⟨String.ext (by simpa [entriesFrom] using hd), rfl⟩
        | cons y1 ys1 =>
          rw [entriesFrom_cons_data] at hd
          have : '[' ∈ x.data := by
            have hm : '[' ∈ x.data ++ (entriesFrom key (i + 1) []).data := by
              rw [hd]; simp
            simpa [entriesFrom] using hm
          exact absurd this hx0
      | cons x1 xs1 =>
        cases ys with
        | nil =>
          rw [entriesFrom_cons_data] at hd
          have : '[' ∈ y.data := by
            have hm : '[' ∈ y.data ++ (entriesFrom key (i + 1) []).data := by
              rw [← hd]; simp
            simpa [entriesFrom] using hm
          exact absurd this hy0
        | cons y1 ys1 =>
          have hd2 := hd
          rw [entriesFrom_cons_data, entriesFrom_cons_data, ← List.append_assoc,
            ← List.append_assoc] at hd2
          obtain ⟨hxy, hrest⟩ := append_cons_cancel '[' _ _ _ _ key_x key_y hd2
          have hxy : x = y := String.ext (List.append_cancel_right hxy)
          subst hxy
          exact ⟨rfl, String.ext (List.append_cancel_left hd)⟩
    obtain ⟨hxy, hrest⟩ := tail
    rw [hxy, entriesFrom_injective key hkey xs ys (i + 1) hxs hys hrest]

theorem keyOf_no_bracket (builder : BuilderType) : '[' ∉ (keyOf builder).data := by
  unfold keyOf
  split_ifs <;> decide

theorem entriesFrom_append (key : String) (v : String) :
    ∀ (xs : List String) (i : Nat), entriesFrom key i (xs ++ [v])
      = entriesFrom key i xs ++ indexedEntry key (i + xs.length) v
  | [], i => by simp [entriesFrom]
  | x :: xs, i => by
    have ih := entriesFrom_append key v xs (i + 1)
    have hlen : i + 1 + xs.length = i + (x :: xs).length := by
      simp only [List.length_cons]; omega
    show indexedEntry key i x ++ entriesFrom key (i + 1) (xs ++ [v])
      = indexedEntry key i x ++ entriesFrom key (i + 1) xs
        ++ indexedEntry key (i + (x :: xs).length) v
    rw [ih, String.append_assoc, hlen]

/-- C21: `parameterBuilder` is not injective.  For the kind dags the list with the one
value `g1dags[1]=g2` and the list with the two values `g1`, `g2` are different and both
encode to `dags[0]=g1dags[1]=g2`, so that `DeleteDags` assembles the same body for both,
whatever the client. -/
theorem parameterBuilder_not_injective (r : RedCapClient) :
    parameterBuilder ["g1dags[1]=g2"] Dags = some "dags[0]=g1dags[1]=g2"
      ∧ parameterBuilder ["g1", "g2"] Dags = some "dags[0]=g1dags[1]=g2"
      ∧ ["g1dags[1]=g2"] ≠ ["g1", "g2"]
      ∧ formating r (.DeleteDags ["g1dags[1]=g2"]) = formating r (.DeleteDags ["g1", "g2"])
      ∧ formating sampleClient (.DeleteDags ["g1", "g2"])
        = some "token=ABC&content=dag&action=delete&format=json&dags[0]=g1dags[1]=g2" := by
  refine ⟨by rw [parameterBuilder_eq]; decide, by rw [parameterBuilder_eq]; decide,
    by decide, ?_, by rw [formating_eq]; rfl⟩
  rw [formating_eq, formating_eq]
  have h : entriesFrom "dags" 0 ["g1dags[1]=g2"] = entriesFrom "dags" 0 ["g1", "g2"] := by
    decide
  simp only [assembled, h]

/-- C22: for every builder kind, `parameterBuilder` is injective on lists whose values
hold no `[`: both lists are encoded, and when the two fragments are equal the lists are
equal, value by value and in the same order. -/
theorem parameterBuilder_injective (builder : BuilderType) (xs ys : List String)
    (hxs : ∀ x ∈ xs, '[' ∉ x.data) (hys : ∀ y ∈ ys, '[' ∉ y.data)
    (h : parameterBuilder xs builder = parameterBuilder ys builder) :
    (∃ fragment, parameterBuilder xs builder = some fragment) ∧ xs = ys := by
  refine ⟨⟨_, parameterBuilder_eq xs builder⟩, ?_⟩
  rw [parameterBuilder_eq, parameterBuilder_eq, Option.some.injEq] at h
  exact entriesFrom_injective (keyOf builder) (keyOf_no_bracket builder) xs ys 0 hxs hys h

/-- The statement of C22 at the kind events and the list group_a, group_b. -/
theorem parameterBuilder_injective_witness :
    (∃ fragment, parameterBuilder ["group_a", "group_b"] Events = some fragment)
      ∧ ["group_a", "group_b"] = ["group_a", "group_b"] :=
  parameterBuilder_injective Events ["group_a", "group_b"] ["group_a", "group_b"]
    (by decide) (by decide) rfl

/-- C23: for every builder kind, list and value, the fragment for the list with the value
appended is the fragment for the list followed by the key of the kind, `[`, the length
of the list in decimal, `]=` and the value; the empty list gives the empty fragment; the
key is `dags`, `events`, `users`, `roles` for userRoles and empty for arms; and a kind
that is none of the five is encoded as arms is, with the empty key. -/
theorem parameterBuilder_append (builder : BuilderType) (xs : List String) (v : String) :
    (∃ fragment, parameterBuilder xs builder = some fragment
        ∧ parameterBuilder (xs ++ [v]) builder
          = some (fragment ++ keyOf builder ++ "[" ++ toString xs.length ++ "]=" ++ v))
      ∧ parameterBuilder [] builder = some ""
      ∧ keyOf Dags = "dags" ∧ keyOf Events = "events" ∧ keyOf Users = "users"
      ∧ keyOf UserRoles = "roles" ∧ keyOf Arms = ""
      ∧ parameterBuilder xs builder
        = parameterBuilder xs
            (if builder ∈ [Dags, Arms, Events, UserRoles, Users] then builder else Arms)
      ∧ keyOf builder
        = keyOf (if builder ∈ [Dags, Arms, Events, UserRoles, Users] then builder else Arms)
      ∧ parameterBuilder ["a", "b"] "records" = some "[0]=a[1]=b" := by
  have hkey : keyOf builder
      = keyOf (if builder ∈ [Dags, Arms, Events, UserRoles, Users] then builder else Arms) := by
    by_cases hm : builder ∈ [Dags, Arms, Events, UserRoles, Users]
    · rw [if_pos hm]
    · rw [if_neg hm]
      simp only [List.mem_cons, List.mem_singleton, List.mem_nil_iff, or_false, not_or] at hm
      obtain ⟨h1, h2, h3, h4, h5⟩ := hm
      have : keyOf Arms = "" := by decide
      rw [this]
      unfold keyOf
      simp [h1, h2, h3, h4, h5]
  refine ⟨⟨_, parameterBuilder_eq xs builder, ?_⟩, by rw [parameterBuilder_eq]; rfl,
    by decide, by decide, by decide, by decide, by decide, ?_, hkey,
    by rw [parameterBuilder_eq]; decide⟩
  · rw [parameterBuilder_eq, entriesFrom_append]
    simp [indexedEntry, String.append_assoc]
  · rw [parameterBuilder_eq, parameterBuilder_eq, ← hkey]

/-! ## Two record methods -/

/-- C24: for every client and strings records, arms, instrument, `DeleteRecords`
assembles exactly
`token=T&action=delete&content=record&records[0]=<records>&arm=<arms>&instrument=<instrument>&event=visit_1_arm_1&returnformat=F`,
with the single entry `records[0]` and the fixed event `visit_1_arm_1`; for the call of
the test the third argument is sent as `instrument=example_event`. -/
theorem DeleteRecords_body (r : RedCapClient) (records arms instrument : String) :
    formating r (.DeleteRecords records arms instrument)
        = some ("token=" ++ r.Token ++ "&action=delete&content=record&records[0]=" ++ records
            ++ "&arm=" ++ arms ++ "&instrument=" ++ instrument
            ++ "&event=visit_1_arm_1&returnformat=" ++ r.ResponseFormat)
      ∧ formating sampleClient (.DeleteRecords "1" "example_field" "example_event")
        = some "token=ABC&action=delete&content=record&records[0]=1&arm=example_field&instrument=example_event&event=visit_1_arm_1&returnformat=json" := by
  constructor <;> rw [formating_eq] <;> rfl

/-- C25: for every client and strings record_id, arm, record_id_new, `RenameRecord`
assembles exactly
`token=T&action=rename&content=record&record=<record_id>&new_record_name=<record_id_new>&arm=<arm>&returnFormat=F`:
the first argument is the old name, the third the new name, the second the arm; the call
of the test renames record 1 to 2 in the arm some_field. -/
theorem RenameRecord_body (r : RedCapClient) (record_id arm record_id_new : String) :
    formating r (.RenameRecord record_id arm record_id_new)
        = some ("token=" ++ r.Token ++ "&action=rename&content=record&record=" ++ record_id
            ++ "&new_record_name=" ++ record_id_new ++ "&arm=" ++ arm ++ "&returnFormat="
            ++ r.ResponseFormat)
      ∧ formating sampleClient (.RenameRecord "1" "some_field" "2")
        = some "token=ABC&action=rename&content=record&record=1&new_record_name=2&arm=some_field&returnFormat=json" := by
  constructor <;> rw [formating_eq] <;> rfl

end Redcap
